import Mathlib

/-!
Verification of the DirectX 12 device/resource layer (`DX12Device` in
`src/Render/DirectX12/RHIImpl/DirectX12RHI_Device.inl`) of the
ResourceManagerModule repository.

The development shallowly embeds the state and operations of `DX12Device`:
resource tables become association lists keyed by the 32-bit handle ids,
native machine integers become `Nat` with explicit `% 2^32` / `% 2^64`
reductions where overflow matters, C++ exceptions become `Except String`
results (paired with the post-throw state where partial mutation matters),
and the GPU fence is modelled by a monotonically increasing completed value.
-/

namespace DX12

/-- Ring depth `kFramesInFlight` from the source. -/
def kFramesInFlight : Nat := 3

/-- The source's `kPerFrameCBUploadBytes`: capacity of the per-draw constant upload ring. -/
def kPerFrameCBUploadBytes : Nat := 512 * 1024

/-- The source's `kPerFrameBufUploadBytes`: capacity of the per-frame buffer upload ring. -/
def kPerFrameBufUploadBytes : Nat := 8 * 1024 * 1024

/-- The source's `kMaxSRVSlots`: number of texture binding slots (t0..t19). -/
def kMaxSRVSlots : Nat := 20

/-- The source's `kSrvHeapNumDescriptors`: capacity of the shader-visible SRV heap. -/
def kSrvHeapNumDescriptors : Nat := 16384

/-- Capacity of the RTV heap created by `EnsureRTVHeap` (`NumDescriptors = 256`). -/
def kRtvHeapNumDescriptors : Nat := 256

/-- Capacity of the DSV heap created by `EnsureDSVHeap` (`NumDescriptors = 256`). -/
def kDsvHeapNumDescriptors : Nat := 256

/-- Modulus of the C++ `std::uint32_t` arithmetic used by the handle id counters. -/
def u32 : Nat := 2 ^ 32

/-- Modulus of the C++ `std::uint64_t` arithmetic used by the PSO cache key. -/
def u64 : Nat := 2 ^ 64

/-- Modelled from the spec: the repository's `AlignUp` helper (declared in a
header outside `src/`) rounds `v` up to the next multiple of `a`; the renderer
file `DirectX12Renderer_RenderFrame_01_BuildInstances.inl` carries the same
helper inline as `(v + (a - 1)) / a * a`. -/
def alignUp (v a : Nat) : Nat := (v + (a - 1)) / a * a

/- ------------------------------------------------------------------
CPU-visible fence primitives (`CreateFence` / `DestroyFence` /
`SignalFence` / `WaitFence` / `IsFenceSignaled`, source lines 1974-1998).
The table `fences_ : unordered_map<uint32_t, bool>` is an association
list; `operator[]` assignment inserts or overwrites.
------------------------------------------------------------------ -/

/-- Key lookup in an association list, the semantics of
`unordered_map::find`. -/
def alookup (k : Nat) : List (Nat × α) → Option α
  | [] => none
  | p :: rest => if p.1 = k then some p.2 else alookup k rest

/-- Erase-by-key for an association list, the semantics of
`unordered_map::erase(key)`. -/
def assocErase : List (Nat × α) → Nat → List (Nat × α)
  | [], _ => []
  | p :: rest, k => if p.1 = k then assocErase rest k else p :: assocErase rest k

/-- Overwrite-or-insert for an association list, the semantics of
`unordered_map::operator[] = v` (an unordered container: only the key-value
mapping is meaningful, so the new binding is placed in front and any old
binding for the key dropped). -/
def assocSet (l : List (Nat × α)) (k : Nat) (v : α) : List (Nat × α) :=
  (k, v) :: assocErase l k

/-- The CPU-visible fence table of `DX12Device`: monotone id counter
`nextFenceId_` plus `fences_ : unordered_map<uint32_t, bool>`. -/
structure FenceState where
  nextFenceId : Nat
  fences : List (Nat × Bool)
deriving Repr, DecidableEq

/-- The source's `CreateFence(signaled)`: `const auto id = ++nextFenceId_; fences_[id] = signaled`. -/
def createFence (s : FenceState) (signaled : Bool) : Nat × FenceState :=
  let id := (s.nextFenceId + 1) % u32
  (id, { nextFenceId := id, fences := assocSet s.fences id signaled })

/-- The source's `DestroyFence(fence)`: `fences_.erase(fence.id)`. -/
def destroyFence (s : FenceState) (fence : Nat) : FenceState :=
  { s with fences := assocErase s.fences fence }

/-- The source's `SignalFence(fence)`: `fences_[fence.id] = true` — inserts a fresh entry
when the handle is not in the table. -/
def signalFence (s : FenceState) (fence : Nat) : FenceState :=
  { s with fences := assocSet s.fences fence true }

/-- The source's `WaitFence(FenceHandle)`: the body is empty — returns at once, no state
read or written. -/
def waitFence (s : FenceState) (_fence : Nat) : FenceState := s

/-- The source's `IsFenceSignaled(fence)`: `it != fences_.end() && it->second`. -/
def isFenceSignaled (s : FenceState) (fence : Nat) : Bool :=
  match alookup fence s.fences with
  | some b => b
  | none => false

/- ------------------------------------------------------------------
Descriptor-heap slot allocators (source lines 2578-2765).
Each allocator is a monotone counter plus a free-list vector; `push_back`
appends, popping takes `back()`.  Fallible allocators return the
post-throw state next to the `Except` result, because the counter has
already advanced when the capacity check throws.
------------------------------------------------------------------ -/

/-- The SRV slot allocator: `nextSrvIndex_` plus free-list `freeSrv_`. -/
structure SrvAlloc where
  nextSrvIndex : Nat
  freeSrv : List Nat
deriving Repr, DecidableEq

/-- The source's `AllocateSrvIndex()`: pop the free-list if non-empty, else take
`nextSrvIndex_++`; throws when the produced index reaches
`kSrvHeapNumDescriptors`. -/
def allocateSrvIndex (a : SrvAlloc) : Except String Nat × SrvAlloc :=
  let (idx, a') :=
    match a.freeSrv.getLast? with
    | some idx => (idx, { a with freeSrv := a.freeSrv.dropLast })
    | none => (a.nextSrvIndex, { a with nextSrvIndex := a.nextSrvIndex + 1 })
  if idx ≥ kSrvHeapNumDescriptors then
    (.error "DX12: SRV heap exhausted (increase SRV heap NumDescriptors).", a')
  else
    (.ok idx, a')

/-- The RTV slot allocator: `nextRTV_` plus free-list `freeRTV_`. -/
structure RtvAlloc where
  nextRTV : Nat
  freeRTV : List Nat
deriving Repr, DecidableEq

/-- The source's `AllocateRTV(...)`: pop the free-list else `nextRTV_++`, then throw if the
index reaches the 256-entry RTV heap capacity. -/
def allocateRTV (a : RtvAlloc) : Except String Nat × RtvAlloc :=
  let (idx, a') :=
    match a.freeRTV.getLast? with
    | some idx => (idx, { a with freeRTV := a.freeRTV.dropLast })
    | none => (a.nextRTV, { a with nextRTV := a.nextRTV + 1 })
  if idx ≥ 256 then
    (.error "DX12: RTV heap exhausted (increase EnsureRTVHeap() NumDescriptors).", a')
  else
    (.ok idx, a')

/-- The source's `AllocateRTVTexture2DArraySlice(...)`: pop the free-list else `nextRTV_++`
and create the view directly — the source has no capacity check on this path. -/
def allocateRTVTexture2DArraySlice (a : RtvAlloc) : Nat × RtvAlloc :=
  match a.freeRTV.getLast? with
  | some idx => (idx, { a with freeRTV := a.freeRTV.dropLast })
  | none => (a.nextRTV, { a with nextRTV := a.nextRTV + 1 })

/-- The source's `AllocateRTVTexture2DArray(...)`: pop the free-list else `nextRTV_++` and
create the view directly — the source has no capacity check on this path either. -/
def allocateRTVTexture2DArray (a : RtvAlloc) : Nat × RtvAlloc :=
  match a.freeRTV.getLast? with
  | some idx => (idx, { a with freeRTV := a.freeRTV.dropLast })
  | none => (a.nextRTV, { a with nextRTV := a.nextRTV + 1 })

/-- The DSV slot allocator: `nextDSV_` plus free-list `freeDSV_`. -/
structure DsvAlloc where
  nextDSV : Nat
  freeDSV : List Nat
deriving Repr, DecidableEq

/-- The source's `AllocateDSV(...)`: pop the free-list else `nextDSV_++`, then throw if the
index reaches the 256-entry DSV heap capacity. -/
def allocateDSV (a : DsvAlloc) : Except String Nat × DsvAlloc :=
  let (idx, a') :=
    match a.freeDSV.getLast? with
    | some idx => (idx, { a with freeDSV := a.freeDSV.dropLast })
    | none => (a.nextDSV, { a with nextDSV := a.nextDSV + 1 })
  if idx ≥ 256 then
    (.error "DX12: DSV heap exhausted (increase EnsureDSVHeap() NumDescriptors).", a')
  else
    (.ok idx, a')

/-- The source's `AllocateDSVTexture2DArray(...)`: pop the free-list else `nextDSV_++`;
this array variant does carry the 256-capacity check. -/
def allocateDSVTexture2DArray (a : DsvAlloc) : Except String Nat × DsvAlloc :=
  let (idx, a') :=
    match a.freeDSV.getLast? with
    | some idx => (idx, { a with freeDSV := a.freeDSV.dropLast })
    | none => (a.nextDSV, { a with nextDSV := a.nextDSV + 1 })
  if idx ≥ 256 then
    (.error "DX12: DSV heap exhausted (increase EnsureDSVHeap() NumDescriptors).", a')
  else
    (.ok idx, a')

/- ------------------------------------------------------------------
Capability detection (`DetectCapabilities_`, source lines 2928-2997, and
the member initializers at lines 3168-3174).
------------------------------------------------------------------ -/

/-- Numeric value of `D3D12_VIEW_INSTANCING_TIER_NOT_SUPPORTED`: 0. -/
def viewInstancingTierNotSupported : Nat := 0

/-- Probe results delivered by the driver during `DetectCapabilities_`:
whether the `ID3D12Device2` cast succeeds, the OPTIONS3 feature query result
(`some tier` on success), the OPTIONS query result, and the highest shader
model query result. -/
structure CapsProbe where
  hasDevice2 : Bool
  options3Tier : Option Nat
  optionsVPAndRTArrayIndex : Option Bool
  shaderModelQuery : Option Nat
deriving Repr, DecidableEq

/-- The capability fields of `DX12Device`, with their member initializers:
`viewInstancingTier_{ NOT_SUPPORTED }`, flags false. -/
structure Caps where
  viewInstancingTier : Nat := viewInstancingTierNotSupported
  supportsViewInstancing : Bool := false
  supportsVPAndRTArrayIndexFromAnyShader : Bool := false
  highestShaderModel : Nat := 51
deriving Repr, DecidableEq

/-- The source's `DetectCapabilities_()` translated statement by statement.  Note that the
member `viewInstancingTier_` is initialized to NOT_SUPPORTED and is never
assigned anywhere in the translation unit; the final recomputation
`supportsViewInstancing_ = (device2_ != nullptr) && (viewInstancingTier_ != NOT_SUPPORTED)`
therefore reads the untouched initializer. -/
def detectCapabilities (p : CapsProbe) : Caps :=
  let c : Caps := {}
  -- supportsViewInstancing_ = (opt3.ViewInstancingTier != NOT_SUPPORTED) on
  -- OPTIONS3 success, else false
  let c := { c with supportsViewInstancing :=
    match p.options3Tier with
    | some tier => decide (tier ≠ viewInstancingTierNotSupported)
    | none => false }
  let c := { c with supportsVPAndRTArrayIndexFromAnyShader :=
    match p.optionsVPAndRTArrayIndex with
    | some b => b
    | none => false }
  -- supportsViewInstancing_ = (device2_ != nullptr) && (viewInstancingTier_ != NOT_SUPPORTED)
  let c := { c with supportsViewInstancing :=
    p.hasDevice2 && decide (c.viewInstancingTier ≠ viewInstancingTierNotSupported) }
  let c := { c with highestShaderModel :=
    match p.shaderModelQuery with
    | some sm => sm
    | none => 51 }
  c

/-- The source's `SupportsViewInstancing()` returns the cached flag. -/
def supportsViewInstancing (c : Caps) : Bool := c.supportsViewInstancing

/- ------------------------------------------------------------------
Handle-id allocation discipline shared by the seven resource tables
(`nextBufId_` .. `nextFenceId_`, source lines 3223-3231, each a
`std::uint32_t` initialized to 1; every `Create*` runs
`Handle h{ ++nextXId_ }` and stores the entry under `h.id`, e.g.
`CreateBuffer`, lines 749-791).
------------------------------------------------------------------ -/

/-- One resource kind's table: the `uint32_t` id counter plus the ids
currently stored in the `unordered_map` (the live handles). -/
structure IdTable where
  nextId : Nat
  live : List Nat
deriving Repr, DecidableEq

/-- The state of each id counter at device construction: `{ 1 }`. -/
def initIdTable : IdTable := { nextId := 1, live := [] }

/-- A `Create*` call: `Handle h{ ++nextXId_ }` (pre-increment on a
`std::uint32_t`, so the counter wraps modulo `2^32`), then
`table_[h.id] = entry` (overwrite-or-insert).  Returns the handle id. -/
def createRes (t : IdTable) : Nat × IdTable :=
  let id := (t.nextId + 1) % u32
  (id, { nextId := id, live := id :: t.live.filter (· ≠ id) })

/-- A `Destroy*` call: no-op on handle 0, else `table_.erase(id)`. -/
def destroyRes (t : IdTable) (id : Nat) : IdTable :=
  if id = 0 then t else { t with live := t.live.filter (· ≠ id) }

/-- A create/destroy script against one resource kind's table. -/
inductive IdOp where
  | create
  | destroy (id : Nat)
deriving Repr, DecidableEq

/-- Run a script, collecting the handle ids returned by the create calls in
call order. -/
def runIdOps : List IdOp → IdTable → IdTable × List Nat
  | [], t => (t, [])
  | .create :: rest, t =>
    let (id, t') := createRes t
    let (tFin, ids) := runIdOps rest t'
    (tFin, id :: ids)
  | .destroy id :: rest, t => runIdOps rest (destroyRes t id)

/-- Number of create calls in a script. -/
def countCreates (ops : List IdOp) : Nat :=
  ops.countP (fun o => o matches .create)

/-- Iterate `createRes` n times from the initial table (a script of creates
only, no destroys). -/
def iterCreate : Nat → IdTable
  | 0 => initIdTable
  | n + 1 => (createRes (iterCreate n)).2

/-- The handle id returned by create call number `n` (1-based) in the
all-creates script. -/
def createIdAt (n : Nat) : Nat := (createRes (iterCreate (n - 1))).1

/- ------------------------------------------------------------------
Pipeline creation and the PSO cache (`CreatePipelineEx`, lines 385-405;
`EnsurePSO` inside `SubmitCommandList`, lines 1171-1414).
------------------------------------------------------------------ -/

/-- A pipeline table entry (`PipelineEntry`, lines 2055-2062; the debug name
is irrelevant to control flow). -/
structure PipelineEntry where
  vs : Nat
  ps : Nat
  topologyType : Nat
  viewInstanceCount : Nat
deriving Repr, DecidableEq

/-- The pipeline-related device state consumed by `CreatePipelineEx`. -/
structure PipeDev where
  supportsViewInstancing : Bool
  hasDevice2 : Bool
  nextPsoId : Nat
  pipelines : List (Nat × PipelineEntry)
deriving Repr, DecidableEq

/-- The source's `CreatePipelineEx`: a request with `viewInstanceCount > 1` on a device
without view-instancing support or without `ID3D12Device2` returns the
zero (invalid) handle and stores nothing; otherwise a fresh handle is
allocated and the entry stored. -/
def createPipelineEx (s : PipeDev) (vs ps topologyType viewInstanceCount : Nat) :
    Nat × PipeDev :=
  if viewInstanceCount > 1 ∧ (¬s.supportsViewInstancing ∨ ¬s.hasDevice2) then
    (0, s)
  else
    let id := (s.nextPsoId + 1) % u32
    (id, { s with nextPsoId := id,
                  pipelines := assocSet s.pipelines id
                    ⟨vs, ps, topologyType, viewInstanceCount⟩ })

/-- The source's `CreatePipeline` delegates to `CreatePipelineEx` with view count 1. -/
def createPipeline (s : PipeDev) (vs ps topologyType : Nat) : Nat × PipeDev :=
  createPipelineEx s vs ps topologyType 1

/-- Modelled from the spec: the `GraphicsState` struct consumed by
`EnsurePSO`'s `PackState` is declared in an RHI header outside `src/`; the
spec names its fields (cull mode, winding, depth test/write, depth compare
op, blend enable), carried here as the numeric enum values that the
source's `PackState` masks. -/
structure GraphicsState where
  cullMode : Nat
  frontFace : Nat
  depthTestEnable : Bool
  depthWriteEnable : Bool
  depthCompareOp : Nat
  blendEnable : Bool
deriving Repr, DecidableEq

/-- The source's `PackState` (lines 1173-1183): `cull & 3 | (front & 1) << 2 | test << 3 |
write << 4 | (cmp & 7) << 5 | blend << 8`. -/
def packState (s : GraphicsState) : Nat :=
  (s.cullMode % 4)
    + (s.frontFace % 2) * 4
    + (if s.depthTestEnable then 1 else 0) * 8
    + (if s.depthWriteEnable then 1 else 0) * 16
    + (s.depthCompareOp % 8) * 32
    + (if s.blendEnable then 1 else 0) * 256

/-- The FNV-1a 64-bit prime `1099511628211`. -/
def fnvPrime : Nat := 1099511628211

/-- The FNV-1a 64-bit offset basis `1469598103934665603`. -/
def fnvBasis : Nat := 1469598103934665603

/-- One FNV-1a byte step: `h ^= byte; h *= kPrime` on `std::uint64_t`. -/
def fnvByte (h b : Nat) : Nat := ((h ^^^ b) * fnvPrime) % u64

/-- The source's `Fnv1a64(h, v)` (lines 1185-1195): folds the eight little-endian bytes of
the 64-bit value `v` into `h`. -/
def fnv1a64 (h v : Nat) : Nat :=
  (List.range 8).foldl (fun h i => fnvByte h ((v >>> (i * 8)) % 256)) h

/-- The inputs that `EnsurePSO` folds into the cache key (lines 1197-1207):
pipeline handle id, input-layout handle id, packed state, render-target
count, depth format, and the eight render-target format slots. -/
structure PsoKeyInputs where
  pipelineId : Nat
  layoutId : Nat
  state : GraphicsState
  numRT : Nat
  dsvFormat : Nat
  rtvFormats : List Nat
deriving Repr, DecidableEq

/-- The `EnsurePSO` cache key: FNV-1a starting at the offset basis, folding
pipeline id, layout id, `PackState(curState)`, `curNumRT`, `curDSVFormat`,
then `curRTVFormats[0..7]` in order. -/
def psoKey (k : PsoKeyInputs) : Nat :=
  k.rtvFormats.foldl fnv1a64
    (fnv1a64 (fnv1a64 (fnv1a64 (fnv1a64 (fnv1a64 fnvBasis k.pipelineId)
      k.layoutId) (packState k.state)) k.numRT) k.dsvFormat)

/-- The spec's description of the fingerprint, written from its words: fold
(pipeline id, layout id, the packed bitfield, render-target count, depth
format, each render-target format) in that order through 64-bit FNV-1a. -/
def specFingerprint (k : PsoKeyInputs) : Nat :=
  ([k.pipelineId, k.layoutId, packState k.state, k.numRT, k.dsvFormat]
    ++ k.rtvFormats).foldl fnv1a64 fnvBasis

/-- The PSO cache: key to compiled native pipeline object, plus a supply of
fresh object identities standing for distinct `ID3D12PipelineState`
pointers produced by compilation. -/
structure PsoCacheState where
  cache : List (Nat × Nat)
  nextNativePso : Nat
deriving Repr, DecidableEq

/-- The source's `EnsurePSO` (lines 1171-1414): compute the FNV-1a key; on a cache hit
return the cached object; on a miss resolve the pipeline entry, its two
shaders and the input layout (each a fatal error when absent), soft-fail
with null for a multi-view entry without `ID3D12Device2` or with a view
count above the 8-location array, otherwise compile a fresh native
pipeline, cache it under the key and return it. -/
def ensurePSO (pipelines : List (Nat × PipelineEntry)) (shaders : List Nat)
    (layouts : List Nat) (hasDevice2 : Bool) (c : PsoCacheState)
    (k : PsoKeyInputs) : Except String (Option Nat) × PsoCacheState :=
  let key := psoKey k
  match alookup key c.cache with
  | some pso => (.ok (some pso), c)
  | none =>
    match alookup k.pipelineId pipelines with
    | none => (.error "DX12: pipeline handle not found", c)
    | some pit =>
      if ¬(shaders.contains pit.vs ∧ shaders.contains pit.ps) then
        (.error "DX12: shader handle not found", c)
      else if ¬layouts.contains k.layoutId then
        (.error "DX12: input layout handle not found", c)
      else if pit.viewInstanceCount > 1 ∧ ¬hasDevice2 then
        (.ok none, c)
      else if pit.viewInstanceCount > 1 ∧ pit.viewInstanceCount > 8 then
        (.ok none, c)
      else
        let pso := c.nextNativePso
        (.ok (some pso),
          { cache := assocSet c.cache key pso, nextNativePso := pso + 1 })

/- ------------------------------------------------------------------
The frame-resource ring, buffers, textures and deferred destruction
(`FrameResource`, lines 2141-2187; `BeginFrame`/`EndFrame`, lines
2346-2373; `DestroyTexture`, lines 648-703; `DestroyBuffer`, lines
826-879; `UpdateBuffer`, lines 793-824; `ImmediateUploadBuffer`, lines
2201-2284; `FlushPendingBufferUpdates`, lines 2286-2339).
------------------------------------------------------------------ -/

/-- A texture table entry (`TextureEntry`, lines 2064-2120), restricted to
the fields `DestroyTexture` reads: the native resource (0 = null) and the
view flags/indices. -/
structure TextureEntry where
  resource : Nat
  hasSRV : Bool := false
  srvIndex : Nat := 0
  hasSRVArray : Bool := false
  srvIndexArray : Nat := 0
  hasRTV : Bool := false
  rtvIndex : Nat := 0
  hasRTVFaces : Bool := false
  rtvIndexFaces : List Nat := []
  hasRTVAllFaces : Bool := false
  rtvIndexAllFaces : Nat := 0
  hasDSV : Bool := false
  dsvIndex : Nat := 0
  hasDSVAllFaces : Bool := false
  dsvIndexAllFaces : Nat := 0
deriving Repr, DecidableEq

/-- A buffer descriptor (`BufferDesc`): only the declared byte size drives
the bounds check. -/
structure BufferDesc where
  sizeInBytes : Nat
deriving Repr, DecidableEq

/-- A buffer table entry (`BufferEntry`, lines 2020-2039): descriptor, the
native resource (0 = null) with its byte contents, and the optional
structured-buffer SRVs. -/
structure BufferEntry where
  desc : BufferDesc
  resource : Nat
  contents : Nat → Nat
  hasSRV : Bool := false
  srvIndex : Nat := 0
  hasSRVArray : Bool := false
  srvIndexArray : Nat := 0

/-- A queued `PendingBufferUpdate` (handle, destination offset, bytes). -/
structure PendingBufferUpdate where
  buffer : Nat
  dstOffsetBytes : Nat
  data : List Nat
deriving Repr, DecidableEq

/-- One frame-resource ring slot (`FrameResource`): upload-ring cursors, the
fence value stamped when the frame using the slot was submitted, and the
deferred-free lists. -/
structure FrameSlot where
  cbCursor : Nat := 0
  bufCursor : Nat := 0
  fenceValue : Nat := 0
  deferredResources : List Nat := []
  deferredFreeSrv : List Nat := []
  deferredFreeRtv : List Nat := []
  deferredFreeDsv : List Nat := []
deriving Repr, DecidableEq

/-- The device state relevant to frame submission and resource lifetime.
`gpuCompleted` is the fence value the GPU has signalled
(`fence_->GetCompletedValue()`), monotone; `released` logs the native
resources whose last owning reference has been dropped (physical release). -/
structure Device where
  frames : Fin 3 → FrameSlot
  activeFrameIndex : Fin 3
  submitIndex : Nat
  fenceValue : Nat
  gpuCompleted : Nat
  hasSubmitted : Bool
  buffers : List (Nat × BufferEntry)
  textures : List (Nat × TextureEntry)
  pendingBufferUpdates : List PendingBufferUpdate
  freeSrv : List Nat
  freeRTV : List Nat
  freeDSV : List Nat
  released : List Nat

/-- Update the slot the device is currently recording into
(`CurrentFrame()`). -/
def updCur (s : Device) (f : FrameSlot → FrameSlot) : Device :=
  { s with
    frames :=
      Function.update s.frames s.activeFrameIndex
        (f (s.frames s.activeFrameIndex)) }

/-- The source's `WaitForFence(v)` (lines 2189-2199): early return on `v == 0`, else block
until the GPU has signalled at least `v` — after the call the completed
value is at least `v`. -/
def waitForFence (s : Device) (v : Nat) : Device :=
  if v = 0 then s else { s with gpuCompleted := max s.gpuCompleted v }

/-- The ring slot picked for submit number `n`:
`submitIndex_ % kFramesInFlight`. -/
def ringSlot (n : Nat) : Fin 3 := ⟨n % 3, Nat.mod_lt _ (by decide)⟩

/-- The source's `BeginFrame()` (lines 2346-2361): pick slot `submitIndex_ % 3`, advance
the submit index, block on the slot's recorded fence value, then
`ReleaseDeferred` — drop the kept-alive native resources and splice the
deferred descriptor indices onto the global free-lists — and reset the
slot's upload cursors. -/
def beginFrame (s : Device) : Device :=
  let ai : Fin 3 := ringSlot s.submitIndex
  let s := { s with activeFrameIndex := ai, submitIndex := s.submitIndex + 1 }
  let fr := s.frames ai
  let s := waitForFence s fr.fenceValue
  { s with
    released := s.released ++ fr.deferredResources
    freeSrv := s.freeSrv ++ fr.deferredFreeSrv
    freeRTV := s.freeRTV ++ fr.deferredFreeRtv
    freeDSV := s.freeDSV ++ fr.deferredFreeDsv
    frames := Function.update s.frames ai
      { fr with deferredResources := [], deferredFreeSrv := [],
                deferredFreeRtv := [], deferredFreeDsv := [],
                cbCursor := 0, bufCursor := 0 } }

/-- The source's `EndFrame()` (lines 2363-2373): signal a new fence value `++fenceValue_`
and stamp it into the active slot. -/
def endFrame (s : Device) : Device :=
  let v := s.fenceValue + 1
  { s with fenceValue := v,
           frames := Function.update s.frames s.activeFrameIndex
             { s.frames s.activeFrameIndex with fenceValue := v } }

/-- The source's `DestroyTexture(texture)` (lines 648-703): no-op on handle 0 or an
unknown handle; otherwise remove the entry and queue its native resource
and every allocated view index on the current frame's deferred-free lists. -/
def destroyTexture (s : Device) (h : Nat) : Device :=
  if h = 0 then s
  else
    match alookup h s.textures with
    | none => s
    | some e =>
      let s := { s with textures := assocErase s.textures h }
      let s := if e.resource ≠ 0 then
          updCur s (fun fr =>
            { fr with deferredResources := fr.deferredResources ++ [e.resource] })
        else s
      let s := if e.hasSRV ∧ e.srvIndex ≠ 0 then
          updCur s (fun fr =>
            { fr with deferredFreeSrv := fr.deferredFreeSrv ++ [e.srvIndex] })
        else s
      let s := if e.hasSRVArray ∧ e.srvIndexArray ≠ 0 then
          updCur s (fun fr =>
            { fr with deferredFreeSrv := fr.deferredFreeSrv ++ [e.srvIndexArray] })
        else s
      let s := if e.hasRTV then
          updCur s (fun fr =>
            { fr with deferredFreeRtv := fr.deferredFreeRtv ++ [e.rtvIndex] })
        else s
      let s := if e.hasRTVFaces then
          updCur s (fun fr =>
            { fr with deferredFreeRtv := fr.deferredFreeRtv ++ e.rtvIndexFaces })
        else s
      let s := if e.hasRTVAllFaces then
          updCur s (fun fr =>
            { fr with deferredFreeRtv := fr.deferredFreeRtv ++ [e.rtvIndexAllFaces] })
        else s
      let s := if e.hasDSV then
          updCur s (fun fr =>
            { fr with deferredFreeDsv := fr.deferredFreeDsv ++ [e.dsvIndex] })
        else s
      let s := if e.hasDSVAllFaces then
          updCur s (fun fr =>
            { fr with deferredFreeDsv := fr.deferredFreeDsv ++ [e.dsvIndexAllFaces] })
        else s
      s

/-- The source's `DestroyBuffer(buffer)` (lines 826-879): no-op on handle 0 or unknown
handle; otherwise remove the entry and its pending updates, defer the
native resource and SRV indices when a frame has been submitted, else drop
the resource at once and push the indices straight onto the global
free-list. -/
def destroyBuffer (s : Device) (h : Nat) : Device :=
  if h = 0 then s
  else
    match alookup h s.buffers with
    | none => s
    | some e =>
      let s := { s with buffers := assocErase s.buffers h,
                        pendingBufferUpdates :=
                          s.pendingBufferUpdates.filter (fun u => u.buffer ≠ h) }
      let s :=
        if e.resource ≠ 0 then
          if s.hasSubmitted then
            updCur s (fun fr =>
              { fr with deferredResources := fr.deferredResources ++ [e.resource] })
          else
            -- the moved-from entry goes out of scope: immediate release
            { s with released := s.released ++ [e.resource] }
        else s
      let s := if e.hasSRV ∧ e.srvIndex ≠ 0 then
          if s.hasSubmitted then
            updCur s (fun fr =>
              { fr with deferredFreeSrv := fr.deferredFreeSrv ++ [e.srvIndex] })
          else { s with freeSrv := s.freeSrv ++ [e.srvIndex] }
        else s
      let s := if e.hasSRVArray ∧ e.srvIndexArray ≠ 0 then
          if s.hasSubmitted then
            updCur s (fun fr =>
              { fr with deferredFreeSrv := fr.deferredFreeSrv ++ [e.srvIndexArray] })
          else { s with freeSrv := s.freeSrv ++ [e.srvIndexArray] }
        else s
      s

/-- Pointwise byte write: `data` written at `off` over existing contents. -/
def writeBytes (c : Nat → Nat) (off : Nat) (data : List Nat) : Nat → Nat :=
  fun i => if off ≤ i ∧ i < off + data.length then data.getD (i - off) 0 else c i

/-- Replace the contents of buffer `h` in the table. -/
def setContents (bs : List (Nat × BufferEntry)) (h : Nat) (c : Nat → Nat) :
    List (Nat × BufferEntry) :=
  bs.map (fun p => if p.1 = h then (p.1, { p.2 with contents := c }) else p)

/-- The source's `UpdateBuffer(buffer, data, offsetBytes)` (lines 793-824): silently
ignore a null handle, empty data or an unknown handle; compute
`const std::size_t end = offsetBytes + data.size()` — a `std::size_t` sum, so it
wraps modulo `2^64` (line 808) — and throw `out of bounds` when `end` exceeds the
declared size, before any write; before the first submission run
`ImmediateUploadBuffer` — a synchronous copy that signals `++fenceValue_` and
blocks on it; afterwards append a `PendingBufferUpdate` to the queue. -/
def updateBuffer (s : Device) (h : Nat) (data : List Nat) (off : Nat) :
    Except String Unit × Device :=
  if h = 0 ∨ data = [] then (.ok (), s)
  else
    match alookup h s.buffers with
    | none => (.ok (), s)
    | some e =>
      if (off + data.length) % u64 > e.desc.sizeInBytes then
        (.error "DX12: UpdateBuffer out of bounds", s)
      else if ¬s.hasSubmitted then
        let v := s.fenceValue + 1
        (.ok (), { s with
          buffers := setContents s.buffers h (writeBytes e.contents off data),
          fenceValue := v,
          gpuCompleted := max s.gpuCompleted v })
      else
        (.ok (), { s with pendingBufferUpdates :=
          s.pendingBufferUpdates ++ [⟨h, off, data⟩] })

/-- The loop body of `FlushPendingBufferUpdates` (lines 2293-2336): skip
updates whose buffer is gone, null or empty; throw on upload-ring
overflow (leaving earlier updates applied); otherwise stage the bytes in
the ring (advancing `bufCursor` by the 16-aligned size) and copy them into
the destination buffer. -/
def flushLoop : List PendingBufferUpdate → Device → Except String Unit × Device
  | [], s => (.ok (), s)
  | u :: rest, s =>
    match alookup u.buffer s.buffers with
    | none => flushLoop rest s
    | some dst =>
      if dst.resource = 0 ∨ u.data = [] then flushLoop rest s
      else
        let aligned := alignUp u.data.length 16
        if (s.frames s.activeFrameIndex).bufCursor + aligned >
            kPerFrameBufUploadBytes then
          (.error
            "DX12: per-frame buffer upload ring overflow (increase kPerFrameBufUploadBytes)",
            s)
        else
          flushLoop rest
            (updCur
              { s with
                buffers :=
                  setContents s.buffers u.buffer
                    (writeBytes dst.contents u.dstOffsetBytes u.data) }
              (fun fr => { fr with bufCursor := fr.bufCursor + aligned }))

/-- The source's `FlushPendingBufferUpdates()` (lines 2286-2339): early return when the
queue is empty, process the queue in order, then clear it (the clear is
skipped when the loop throws). -/
def flushPendingBufferUpdates (s : Device) : Except String Unit × Device :=
  if s.pendingBufferUpdates = [] then (.ok (), s)
  else
    match flushLoop s.pendingBufferUpdates s with
    | (.ok (), s') => (.ok (), { s' with pendingBufferUpdates := [] })
    | (.error e, s') => (.error e, s')

/-- The prelude of `SubmitCommandList` (lines 988-1000): `BeginFrame()`,
`hasSubmitted_ = true`, bind the descriptor heap, then
`FlushPendingBufferUpdates()` — all before the first command of the
submission is translated. -/
def submitPrelude (s : Device) : Except String Unit × Device :=
  let s := beginFrame s
  let s := { s with hasSubmitted := true }
  flushPendingBufferUpdates s

/-- The pure effect of one pending update on the buffer table: the
specification-level restatement of the loop body's copy. -/
def applyUpdate (bs : List (Nat × BufferEntry)) (u : PendingBufferUpdate) :
    List (Nat × BufferEntry) :=
  match alookup u.buffer bs with
  | none => bs
  | some dst =>
    if dst.resource = 0 ∨ u.data = [] then bs
    else setContents bs u.buffer (writeBytes dst.contents u.dstOffsetBytes u.data)

/- ------------------------------------------------------------------
Texture binding during command translation (`GetTextureSRV`, lines
1075-1091; the `CommnadBindTexture2D` / `CommandBindTextureCube` cases,
lines 1667-1704; `ResolveTextureHandleFromDesc` and the
`CommandTextureDesc` case, lines 1060-1073 and 1705-1720).  A GPU
descriptor handle is represented by its SRV heap index; index 0 is the
heap start, the reserved null Texture2D view.
------------------------------------------------------------------ -/

/-- The source's `GetTextureSRV(handle)`: a null handle, an unknown handle or an entry
without an SRV all resolve to the heap start (the reserved null view at
slot 0); otherwise the entry's sampled-view descriptor. -/
def getTextureSRV (textures : List (Nat × TextureEntry)) (h : Nat) : Nat :=
  if h = 0 then 0
  else
    match alookup h textures with
    | none => 0
    | some e => if ¬e.hasSRV then 0 else e.srvIndex

/-- The `CommnadBindTexture2D` case: out-of-range slots are silently
skipped; within range the handle must be in the texture table and the
entry must carry an SRV (else a fatal error), and the slot is bound to
`GetTextureSRV`'s result. -/
def bindTexture2D (textures : List (Nat × TextureEntry)) (slot h : Nat)
    (boundTex : Nat → Nat) : Except String (Nat → Nat) :=
  if slot < kMaxSRVSlots then
    match alookup h textures with
    | none => .error "DX12: BindTexture2D: texture not found in textures_ map"
    | some e =>
      if ¬e.hasSRV then .error "DX12: BindTexture2D: texture has no SRV"
      else .ok (fun i => if i = slot then getTextureSRV textures h else boundTex i)
  else .ok boundTex

/-- The `CommandBindTextureCube` case: same control flow as
`CommnadBindTexture2D`. -/
def bindTextureCube (textures : List (Nat × TextureEntry)) (slot h : Nat)
    (boundTex : Nat → Nat) : Except String (Nat → Nat) :=
  if slot < kMaxSRVSlots then
    match alookup h textures with
    | none => .error "DX12: BindTextureCube: texture not found in textures_ map"
    | some e =>
      if ¬e.hasSRV then .error "DX12: BindTextureCube: texture has no SRV"
      else .ok (fun i => if i = slot then getTextureSRV textures h else boundTex i)
  else .ok boundTex

/-- The source's `ResolveTextureHandleFromDesc(idx)`: descriptor index 0 means the null
handle; an unmapped nonzero index is a fatal error. -/
def resolveTextureHandleFromDesc (descToTex : List (Nat × Nat)) (idx : Nat) :
    Except String Nat :=
  if idx = 0 then .ok 0
  else
    match alookup idx descToTex with
    | none => .error "DX12: TextureDescIndex not mapped"
    | some h => .ok h

/-- The `CommandTextureDesc` case: resolve the bindless descriptor index; a
null result binds the slot to the heap start (reserved null view), else
the slot is bound to `GetTextureSRV` of the resolved handle. -/
def cmdTextureDesc (descToTex : List (Nat × Nat))
    (textures : List (Nat × TextureEntry)) (slot idx : Nat)
    (boundTex : Nat → Nat) : Except String (Nat → Nat) :=
  if slot < kMaxSRVSlots then
    match resolveTextureHandleFromDesc descToTex idx with
    | .error e => .error e
    | .ok h =>
      if h = 0 then .ok (fun i => if i = slot then 0 else boundTex i)
      else .ok (fun i => if i = slot then getTextureSRV textures h else boundTex i)
  else .ok boundTex

/- ------------------------------------------------------------------
Device-level operation scripts for the frame-ring lifetime claims.
------------------------------------------------------------------ -/

/-- The device operations that interact with the frame-resource ring and
the deferred-free lists. -/
inductive DevOp where
  | beginFrame
  | endFrame
  | destroyTexture (h : Nat)
  | destroyBuffer (h : Nat)
  | updateBuffer (h : Nat) (data : List Nat) (off : Nat)
  | gpuAdvance (n : Nat)
deriving DecidableEq

/-- One step of the device; `gpuAdvance` models the GPU making progress on
queued work (the completed fence value never exceeds the last signalled
value). -/
def devStep : DevOp → Device → Device
  | .beginFrame, s => beginFrame s
  | .endFrame, s => endFrame s
  | .destroyTexture h, s => destroyTexture s h
  | .destroyBuffer h, s => destroyBuffer s h
  | .updateBuffer h data off, s => (updateBuffer s h data off).2
  | .gpuAdvance n, s =>
      { s with gpuCompleted := min (s.gpuCompleted + n) s.fenceValue }

/-- Whether an operation is the `BeginFrame` that picks ring slot `k` from
state `s` (`activeFrameIndex_ = submitIndex_ % kFramesInFlight`). -/
def picksSlot (s : Device) (o : DevOp) (k : Fin 3) : Prop :=
  o = DevOp.beginFrame ∧ s.submitIndex % 3 = k.val

instance (s : Device) (o : DevOp) (k : Fin 3) : Decidable (picksSlot s o k) := by
  unfold picksSlot
  exact instDecidableAnd

/-- Every deferred-free list of every ring slot of `s'` extends the
corresponding list of `s` at the tail: nothing was drained. -/
def slotGrows (s s' : Device) : Prop :=
  ∀ k : Fin 3,
    (∃ t, (s'.frames k).deferredResources = (s.frames k).deferredResources ++ t) ∧
    (∃ t, (s'.frames k).deferredFreeSrv = (s.frames k).deferredFreeSrv ++ t) ∧
    (∃ t, (s'.frames k).deferredFreeRtv = (s.frames k).deferredFreeRtv ++ t) ∧
    (∃ t, (s'.frames k).deferredFreeDsv = (s.frames k).deferredFreeDsv ++ t)

/-- The step from `s` to `s'` kept the active slot, its kept-alive resource
list and the physical-release log intact. -/
def curSlotResSame (s s' : Device) : Prop :=
  s'.activeFrameIndex = s.activeFrameIndex ∧
  (s'.frames s.activeFrameIndex).deferredResources =
    (s.frames s.activeFrameIndex).deferredResources ∧
  s'.released = s.released

/- ==================================================================
Theorems.
================================================================== -/

theorem alookup_assocErase_ne {α : Type} (l : List (Nat × α)) (k k' : Nat)
    (h : k' ≠ k) :
    alookup k' (assocErase l k) = alookup k' l := by
  induction l with
  | nil => rfl
  | cons p rest ih =>
    have hkk : ¬k = k' := fun hk => h hk.symm
    have hkk2 : ¬k' = k := h
    by_cases hp : p.1 = k
    · simp [assocErase, hp, alookup, hkk, hkk2]
      exact ih
    · by_cases hk' : p.1 = k'
      · simp [assocErase, hp, alookup, hk', hkk, hkk2]
      · simp [assocErase, hp, alookup, hk', hkk, hkk2]
        exact ih

theorem alookup_assocSet_self {α : Type} (l : List (Nat × α)) (k : Nat) (v : α) :
    alookup k (assocSet l k v) = some v := by
  simp [assocSet, alookup]

theorem alookup_assocSet_ne {α : Type} (l : List (Nat × α)) (k k' : Nat) (v : α)
    (h : k' ≠ k) :
    alookup k' (assocSet l k v) = alookup k' l := by
  have hk : ¬k = k' := fun hk => h hk.symm
  simp only [assocSet, alookup, hk, if_false]
  exact alookup_assocErase_ne l k k' h

theorem alookup_assocErase_self {α : Type} (l : List (Nat × α)) (k : Nat) :
    alookup k (assocErase l k) = none := by
  induction l with
  | nil => rfl
  | cons p rest ih =>
    by_cases hp : p.1 = k
    · simpa [assocErase, hp] using ih
    · simpa [assocErase, hp, alookup] using ih

/-- C10: `WaitFence` returns immediately for every handle without touching
any state; `SignalFence(f)` marks `f` signalled even when `f` was destroyed
or never created, inserting a fresh table entry, so a subsequent
`IsFenceSignaled(f)` reports true; and `IsFenceSignaled` reports false
exactly when the handle is absent from the fence table or present but
unsignalled. -/
theorem c10_fence_primitives (s : FenceState) (f : Nat) :
    waitFence s f = s ∧
    isFenceSignaled (signalFence s f) f = true ∧
    (isFenceSignaled s f = false ↔
      alookup f s.fences = none ∨ alookup f s.fences = some false) := by
  refine ⟨rfl, ?_, ?_⟩
  · simp [isFenceSignaled, signalFence, alookup_assocSet_self]
  · unfold isFenceSignaled
    cases h : alookup f s.fences with
    | none => simp
    | some b => cases b <;> simp

/-- C7: the claim says `SupportsViewInstancing()` is true exactly when the
device-creation probe found a view-instancing tier other than
`NOT_SUPPORTED` on a device exposing `ID3D12Device2`.  In the code the
member `viewInstancingTier_` is never assigned from the probe, and the
final recomputation at the end of `DetectCapabilities_` reads that
untouched `NOT_SUPPORTED` initializer, clobbering the correct value
computed from `OPTIONS3`: the query is false for every probe outcome,
including a device exposing `ID3D12Device2` with `ViewInstancingTier`
TIER_1. -/
theorem c7_supportsViewInstancing_always_false :
    (∀ p : CapsProbe,
        supportsViewInstancing (detectCapabilities p) = false) ∧
    supportsViewInstancing (detectCapabilities
      { hasDevice2 := true, options3Tier := some 1,
        optionsVPAndRTArrayIndex := some true,
        shaderModelQuery := some 66 }) = false := by
  constructor
  · intro p
    obtain ⟨d2, o3, ovp, sm⟩ := p
    cases o3 <;> cases ovp <;> cases sm <;>
      simp [detectCapabilities, supportsViewInstancing,
        viewInstancingTierNotSupported]
  · rfl

/-- C8: the claim says every descriptor-heap allocation path signals an
exhaustion error when the produced index would exceed the heap's fixed
capacity, including the texture-array RTV and DSV view variants.
`AllocateSrvIndex`, `AllocateRTV`, `AllocateDSV` and
`AllocateDSVTexture2DArray` do carry the check, but
`AllocateRTVTexture2DArraySlice` and `AllocateRTVTexture2DArray` allocate
past the 256-entry RTV heap without any error: with the counter at 256 and
an empty free-list they hand out index 256. -/
theorem c8_rtv_array_alloc_skips_capacity_check :
    (allocateRTV ⟨256, []⟩).1 =
      Except.error "DX12: RTV heap exhausted (increase EnsureRTVHeap() NumDescriptors)." ∧
    (allocateDSV ⟨256, []⟩).1 =
      Except.error "DX12: DSV heap exhausted (increase EnsureDSVHeap() NumDescriptors)." ∧
    (allocateDSVTexture2DArray ⟨256, []⟩).1 =
      Except.error "DX12: DSV heap exhausted (increase EnsureDSVHeap() NumDescriptors)." ∧
    (allocateSrvIndex ⟨16384, []⟩).1 =
      Except.error "DX12: SRV heap exhausted (increase SRV heap NumDescriptors)." ∧
    allocateRTVTexture2DArraySlice ⟨256, []⟩ = (256, ⟨257, []⟩) ∧
    allocateRTVTexture2DArray ⟨256, []⟩ = (256, ⟨257, []⟩) := by
  exact ⟨rfl, rfl, rfl, rfl, rfl, rfl⟩

theorem iterCreate_nextId (n : Nat) : (iterCreate n).nextId = (1 + n) % u32 := by
  induction n with
  | zero =>
    have : (1 : Nat) % u32 = 1 := by decide
    simp [iterCreate, initIdTable, this]
  | succ n ih =>
    show (createRes (iterCreate n)).2.nextId = (1 + (n + 1)) % u32
    simp [createRes, ih, Nat.add_mod_left, Nat.mod_add_mod]
    ring_nf

theorem createIdAt_eq (n : Nat) (h : 1 ≤ n) : createIdAt n = (1 + n) % u32 := by
  unfold createIdAt
  rw [show (createRes (iterCreate (n - 1))).1 =
      ((iterCreate (n - 1)).nextId + 1) % u32 from rfl]
  rw [iterCreate_nextId]
  rw [Nat.mod_add_mod]
  congr 1
  omega

/-- C9 counterexample: the id counters are 32-bit and wrap.  In the script
consisting of `2^32 + 1` consecutive `CreateBuffer` calls and no destroys,
create call number 1 and create call number `2^32 + 1` both return handle
id 2, although neither resource was ever destroyed — two simultaneously
live resources of the same kind share a handle value.  Along the way,
create call number `2^32 - 1` returns handle id 0, the reserved
invalid/null sentinel, which `DestroyBuffer` refuses to destroy. -/
theorem c9_counterexample :
    createIdAt 1 = 2 ∧ createIdAt 4294967297 = 2 ∧
    (1 : Nat) ≠ 4294967297 ∧ createIdAt 4294967295 = 0 := by
  refine ⟨?_, ?_, by decide, ?_⟩
  · rw [createIdAt_eq 1 (by decide)]; decide
  · rw [createIdAt_eq 4294967297 (by decide)]
    show (1 + 4294967297) % 2 ^ 32 = 2
    norm_num
  · rw [createIdAt_eq 4294967295 (by decide)]
    show (1 + 4294967295) % 2 ^ 32 = 0
    norm_num

theorem runIdOps_ids (ops : List IdOp) :
    ∀ t : IdTable, t.nextId + countCreates ops < u32 →
      (runIdOps ops t).2 = List.range' (t.nextId + 1) (countCreates ops) ∧
      (runIdOps ops t).1.nextId = t.nextId + countCreates ops := by
  induction ops with
  | nil => intro t _; simp [runIdOps, countCreates]
  | cons o rest ih =>
    intro t hlt
    cases o with
    | create =>
      have hc : countCreates (IdOp.create :: rest) = countCreates rest + 1 := by
        simp [countCreates]
      rw [hc] at hlt
      have hid : (t.nextId + 1) % u32 = t.nextId + 1 := by
        apply Nat.mod_eq_of_lt
        omega
      have ih' := ih (createRes t).2 (by simp [createRes, hid]; omega)
      have hrun : runIdOps (IdOp.create :: rest) t =
          ((runIdOps rest (createRes t).2).1,
           (createRes t).1 :: (runIdOps rest (createRes t).2).2) := rfl
      rw [hrun, hc]
      have hnx' : (createRes t).2.nextId = t.nextId + 1 := by simp [createRes, hid]
      rw [hnx'] at ih'
      constructor
      · show (createRes t).1 :: (runIdOps rest (createRes t).2).2 =
          List.range' (t.nextId + 1) (countCreates rest + 1)
        have h1 : (createRes t).1 = t.nextId + 1 := by simp [createRes, hid]
        rw [h1, ih'.1, List.range'_succ]
      · show (runIdOps rest (createRes t).2).1.nextId = t.nextId + (countCreates rest + 1)
        rw [ih'.2]
        omega
    | destroy id =>
      have hc : countCreates (IdOp.destroy id :: rest) = countCreates rest := by
        simp [countCreates]
      rw [hc] at hlt
      have hrun : runIdOps (IdOp.destroy id :: rest) t =
          runIdOps rest (destroyRes t id) := rfl
      have hnx : (destroyRes t id).nextId = t.nextId := by
        unfold destroyRes
        split <;> rfl
      have ih' := ih (destroyRes t id) (by rw [hnx]; omega)
      rw [hnx] at ih'
      rw [hrun, hc]
      exact ih'

/-- C9 amended: for every sequence of Create/Destroy calls on one resource
kind in which fewer than `2^32 - 1` creates occur (so the 32-bit id counter
never wraps), the handles the creates return are exactly the consecutive
ids 2, 3, ...: strictly increasing, pairwise distinct and never zero.
Hence no two simultaneously live resources of the kind share a handle
value and a destroyed handle's id is never handed to a new resource.  The
claim's unrestricted form fails once the counter wraps after `2^32`
creates (see the counterexample). -/
theorem c9_amended (ops : List IdOp) (h : 1 + countCreates ops < u32) :
    (runIdOps ops initIdTable).2 = List.range' 2 (countCreates ops) ∧
    (runIdOps ops initIdTable).2.Nodup ∧
    (runIdOps ops initIdTable).2.Pairwise (· < ·) ∧
    0 ∉ (runIdOps ops initIdTable).2 := by
  have hids := runIdOps_ids ops initIdTable (by simp [initIdTable]; omega)
  have hr : (runIdOps ops initIdTable).2 = List.range' 2 (countCreates ops) := by
    simpa [initIdTable] using hids.1
  refine ⟨hr, ?_, ?_, ?_⟩
  · rw [hr]; exact List.nodup_range' _ _
  · rw [hr]; exact List.pairwise_lt_range' _ _
  · rw [hr]
    intro hmem
    have := List.mem_range'_1.mp hmem
    omega

/-- Witness for `c9_amended`: the script create, create, destroy 2, create
has three creates and returns the ids 2, 3, 4. -/
theorem c9_amended_witness :
    (runIdOps [IdOp.create, IdOp.create, IdOp.destroy 2, IdOp.create]
      initIdTable).2 = [2, 3, 4] ∧
    (runIdOps [IdOp.create, IdOp.create, IdOp.destroy 2, IdOp.create]
      initIdTable).2.Nodup := by
  have h := c9_amended [IdOp.create, IdOp.create, IdOp.destroy 2, IdOp.create]
    (by decide)
  refine ⟨?_, h.2.1⟩
  rw [h.1]
  rfl

/-- C5 counterexample: the claim says `UpdateBuffer` validates
`offset + data-length ≤ declared size` and signals the out-of-bounds error
whenever that check fails.  The code computes
`const std::size_t end = offsetBytes + data.size()` (line 808), a machine
sum that wraps modulo `2^64`: on a device past its first submission holding
a 256-byte buffer, updating it at offset `2^64 − 50` with 100 bytes has
`offset + length = 2^64 + 50 > 256`, yet the wrapped `end` is 50, the check
passes, and the update is accepted and queued with no error. -/
theorem c5_counterexample :
    (2 ^ 64 - 50) + 100 > 256 ∧
    updateBuffer
      { frames := fun _ => {}, activeFrameIndex := 0, submitIndex := 0,
        fenceValue := 0, gpuCompleted := 0, hasSubmitted := true,
        buffers := [(2, { desc := ⟨256⟩, resource := 7, contents := fun _ => 0 })],
        textures := [], pendingBufferUpdates := [], freeSrv := [],
        freeRTV := [], freeDSV := [], released := [] }
      2 (List.replicate 100 9) (2 ^ 64 - 50) =
    (.ok (),
      { frames := fun _ => {}, activeFrameIndex := 0, submitIndex := 0,
        fenceValue := 0, gpuCompleted := 0, hasSubmitted := true,
        buffers := [(2, { desc := ⟨256⟩, resource := 7, contents := fun _ => 0 })],
        textures := [],
        pendingBufferUpdates := [⟨2, 2 ^ 64 - 50, List.replicate 100 9⟩],
        freeSrv := [], freeRTV := [], freeDSV := [], released := [] }) := by
  exact ⟨by decide, rfl⟩

/-- C5 amended: `UpdateBuffer` on a live buffer with non-empty data checks
the `std::size_t` sum `end = (offset + data-length) mod 2^64` against the
declared size and throws the out-of-bounds error exactly when `end` exceeds
it, before performing or queuing any write: the returned state is exactly
the input state — buffer contents, the pending-update queue and all other
device state are untouched.  Whenever `offset + data-length` does not wrap
(i.e. is below `2^64`) this is the claimed validation. -/
theorem c5_amended (s : Device) (h : Nat)
    (data : List Nat) (off : Nat) (e : BufferEntry)
    (hh : h ≠ 0) (hd : data ≠ [])
    (hlook : alookup h s.buffers = some e)
    (hoob : (off + data.length) % u64 > e.desc.sizeInBytes) :
    updateBuffer s h data off = (.error "DX12: UpdateBuffer out of bounds", s) := by
  unfold updateBuffer
  simp [hh, hd, hlook, hoob]

/-- Witness for `c5_amended`: a 256-byte buffer updated at offset 200 with
100 bytes (no wrap: end = 300) errors and the state is returned
unchanged. -/
theorem c5_amended_witness :
    updateBuffer
      { frames := fun _ => {}, activeFrameIndex := 0, submitIndex := 0,
        fenceValue := 0, gpuCompleted := 0, hasSubmitted := false,
        buffers := [(2, { desc := ⟨256⟩, resource := 7, contents := fun _ => 0 })],
        textures := [], pendingBufferUpdates := [], freeSrv := [],
        freeRTV := [], freeDSV := [], released := [] }
      2 (List.replicate 100 9) 200 =
    (.error "DX12: UpdateBuffer out of bounds",
      { frames := fun _ => {}, activeFrameIndex := 0, submitIndex := 0,
        fenceValue := 0, gpuCompleted := 0, hasSubmitted := false,
        buffers := [(2, { desc := ⟨256⟩, resource := 7, contents := fun _ => 0 })],
        textures := [], pendingBufferUpdates := [], freeSrv := [],
        freeRTV := [], freeDSV := [], released := [] }) := by
  exact c5_amended _ 2 (List.replicate 100 9) 200
    { desc := ⟨256⟩, resource := 7, contents := fun _ => 0 }
    (by decide) (by simp) rfl (by decide)

/-- C3 counterexample: the claim says binding the zero/null texture handle
resolves to the reserved null view rather than failing.  In the code
`CommnadBindTexture2D` looks the handle up in `textures_` before any null
check; handle 0 is never a key of that table (ids start at 2), so binding
texture handle 0 — here on a fresh device and on a device with one live
texture — is the same fatal `texture not found` error as any unknown
handle. -/
theorem c3_counterexample :
    bindTexture2D [] 0 0 (fun _ => 0) =
      .error "DX12: BindTexture2D: texture not found in textures_ map" ∧
    bindTexture2D [(2, { resource := 5, hasSRV := true, srvIndex := 3 })] 0 0
      (fun _ => 0) =
      .error "DX12: BindTexture2D: texture not found in textures_ map" ∧
    bindTextureCube [] 0 0 (fun _ => 0) =
      .error "DX12: BindTextureCube: texture not found in textures_ map" := by
  exact ⟨rfl, rfl, rfl⟩

/-- C3 amended: for the texture-binding commands `BindTexture2D` /
`BindTextureCube` with a slot below `kMaxSRVSlots`, every handle that is
not in the texture table — including the zero/null handle, which never
occurs as a key — is a fatal error; commands naming a slot at or above
`kMaxSRVSlots` are silently ignored.  The reserved null view at
sampled-view heap slot 0 is reached through the bindless path instead:
`CommandTextureDesc` with descriptor index 0 binds the slot to the heap
start without error, and `GetTextureSRV` (used by that path) resolves
null and unknown handles to heap slot 0. -/
theorem c3_amended (textures : List (Nat × TextureEntry)) (slot h : Nat)
    (bound : Nat → Nat) :
    (slot < kMaxSRVSlots → alookup h textures = none →
      bindTexture2D textures slot h bound =
        .error "DX12: BindTexture2D: texture not found in textures_ map" ∧
      bindTextureCube textures slot h bound =
        .error "DX12: BindTextureCube: texture not found in textures_ map") ∧
    (slot < kMaxSRVSlots →
      ∀ descToTex, cmdTextureDesc descToTex textures slot 0 bound =
        .ok (fun i => if i = slot then 0 else bound i)) ∧
    (getTextureSRV textures 0 = 0) ∧
    (alookup h textures = none → getTextureSRV textures h = 0) ∧
    (¬slot < kMaxSRVSlots →
      bindTexture2D textures slot h bound = .ok bound ∧
      bindTextureCube textures slot h bound = .ok bound) := by
  refine ⟨?_, ?_, ?_, ?_, ?_⟩
  · intro hs hn
    constructor
    · unfold bindTexture2D
      simp [hs, hn]
    · unfold bindTextureCube
      simp [hs, hn]
  · intro hs descToTex
    unfold cmdTextureDesc resolveTextureHandleFromDesc
    simp [hs]
  · rfl
  · intro hn
    unfold getTextureSRV
    by_cases h0 : h = 0
    · simp [h0]
    · simp [h0, hn]
  · intro hs
    constructor
    · unfold bindTexture2D
      simp [hs]
    · unfold bindTextureCube
      simp [hs]

/-- Witness for `c3_amended`: instantiated on a device with one live
texture (handle 2), an unknown handle 1 at slot 0, and slot 25 out of
range. -/
theorem c3_amended_witness :
    (bindTexture2D [(2, { resource := 5, hasSRV := true, srvIndex := 3 })] 0 1
        (fun _ => 0) =
      .error "DX12: BindTexture2D: texture not found in textures_ map") ∧
    (cmdTextureDesc [] [(2, { resource := 5, hasSRV := true, srvIndex := 3 })]
        0 0 (fun _ => 0) = .ok (fun i => if i = 0 then 0 else 0)) ∧
    (bindTexture2D [(2, { resource := 5, hasSRV := true, srvIndex := 3 })] 25 1
        (fun _ => 0) = .ok (fun _ => 0)) := by
  have h := c3_amended [(2, { resource := 5, hasSRV := true, srvIndex := 3 })]
    0 1 (fun _ => 0)
  have h25 := c3_amended [(2, { resource := 5, hasSRV := true, srvIndex := 3 })]
    25 1 (fun _ => 0)
  exact ⟨(h.1 (by decide) rfl).1, h.2.1 (by decide) [],
    (h25.2.2.2.2 (by decide)).1⟩

theorem beginFrame_preserves (s : Device) :
    (beginFrame s).buffers = s.buffers ∧
    (beginFrame s).pendingBufferUpdates = s.pendingBufferUpdates := by
  unfold beginFrame waitForFence
  dsimp only
  split <;> exact ⟨rfl, rfl⟩

theorem flushLoop_ok (us : List PendingBufferUpdate) :
    ∀ (s : Device) (r : Unit) (s' : Device), flushLoop us s = (.ok r, s') →
      s'.buffers = List.foldl applyUpdate s.buffers us ∧
      s'.pendingBufferUpdates = s.pendingBufferUpdates := by
  induction us with
  | nil =>
    intro s r s' h
    unfold flushLoop at h
    rw [Prod.mk.injEq] at h
    rw [← h.2]
    exact ⟨rfl, rfl⟩
  | cons u rest ih =>
    intro s r s' h
    unfold flushLoop at h
    cases hlk : alookup u.buffer s.buffers with
    | none =>
      rw [hlk] at h
      have hres := ih s r s' h
      rw [List.foldl_cons]
      rw [show applyUpdate s.buffers u = s.buffers by
        unfold applyUpdate; rw [hlk]]
      exact hres
    | some dst =>
      rw [hlk] at h
      dsimp only at h
      by_cases hskip : dst.resource = 0 ∨ u.data = []
      · rw [if_pos hskip] at h
        have hres := ih s r s' h
        rw [List.foldl_cons]
        rw [show applyUpdate s.buffers u = s.buffers by
          unfold applyUpdate; rw [hlk]; dsimp only; rw [if_pos hskip]]
        exact hres
      · rw [if_neg hskip] at h
        by_cases hover : (s.frames s.activeFrameIndex).bufCursor +
            alignUp u.data.length 16 > kPerFrameBufUploadBytes
        · rw [if_pos hover] at h
          rw [Prod.mk.injEq] at h
          exact absurd h.1 (by simp)
        · rw [if_neg hover] at h
          have hres := ih _ r s' h
          rw [List.foldl_cons]
          rw [show applyUpdate s.buffers u =
              setContents s.buffers u.buffer
                (writeBytes dst.contents u.dstOffsetBytes u.data) by
            unfold applyUpdate; rw [hlk]; dsimp only; rw [if_neg hskip]]
          exact hres

theorem flushPending_ok (s : Device)
    (hok : (flushPendingBufferUpdates s).1 = .ok ()) :
    (flushPendingBufferUpdates s).2.buffers =
      List.foldl applyUpdate s.buffers s.pendingBufferUpdates ∧
    (flushPendingBufferUpdates s).2.pendingBufferUpdates = [] := by
  unfold flushPendingBufferUpdates at hok ⊢
  by_cases hemp : s.pendingBufferUpdates = []
  · rw [if_pos hemp]
    dsimp only
    rw [hemp]
    exact ⟨rfl, rfl⟩
  · rw [if_neg hemp] at hok ⊢
    cases hfl : flushLoop s.pendingBufferUpdates s with
    | mk r1 s2 =>
      cases r1 with
      | ok u =>
        cases u
        have hres := flushLoop_ok s.pendingBufferUpdates s () s2 hfl
        dsimp only
        exact ⟨hres.1, rfl⟩
      | error msg =>
        rw [hfl] at hok
        exact absurd hok (by simp)

/-- C2: an `UpdateBuffer` on a live buffer with an in-bounds non-empty range
writes synchronously through a blocking immediate upload when nothing has
been submitted yet (the new fence value is signalled and waited for);
afterwards it only appends to the pending queue.  The queue is flushed at
the start of the next `SubmitCommandList` — after `BeginFrame` and before
any command is translated — applying every queued update exactly once in
issue order (a left fold over the queue) and leaving the queue empty. -/
theorem c2_buffer_updates (s : Device) (h : Nat) (data : List Nat) (off : Nat)
    (e : BufferEntry)
    (hh : h ≠ 0) (hd : data ≠ [])
    (hlook : alookup h s.buffers = some e)
    (hbound : ¬off + data.length > e.desc.sizeInBytes) :
    (s.hasSubmitted = false →
      updateBuffer s h data off =
        (.ok (), { s with
          buffers := setContents s.buffers h (writeBytes e.contents off data),
          fenceValue := s.fenceValue + 1,
          gpuCompleted := max s.gpuCompleted (s.fenceValue + 1) })) ∧
    (s.hasSubmitted = true →
      updateBuffer s h data off =
        (.ok (), { s with pendingBufferUpdates :=
          s.pendingBufferUpdates ++ [⟨h, off, data⟩] })) ∧
    ((submitPrelude s).1 = .ok () →
      (submitPrelude s).2.buffers =
        List.foldl applyUpdate s.buffers s.pendingBufferUpdates ∧
      (submitPrelude s).2.pendingBufferUpdates = []) := by
  have hbound' : ¬(off + data.length) % u64 > e.desc.sizeInBytes :=
    fun hgt => hbound (Nat.lt_of_lt_of_le hgt (Nat.mod_le _ _))
  refine ⟨?_, ?_, ?_⟩
  · intro hns
    unfold updateBuffer
    simp [hh, hd, hlook, hbound', hns]
  · intro hs
    unfold updateBuffer
    simp [hh, hd, hlook, hbound', hs]
  · intro hok
    have hok' : (flushPendingBufferUpdates
        { beginFrame s with hasSubmitted := true }).1 = .ok () := hok
    have hres := flushPending_ok _ hok'
    constructor
    · show (flushPendingBufferUpdates
        { beginFrame s with hasSubmitted := true }).2.buffers = _
      rw [hres.1]
      show List.foldl applyUpdate (beginFrame s).buffers
        (beginFrame s).pendingBufferUpdates = _
      rw [(beginFrame_preserves s).1, (beginFrame_preserves s).2]
    · exact hres.2

/-- Witness for `c2_buffer_updates`: a device that has already submitted,
with one 4-byte buffer (handle 2) and two queued updates; a further update
is queued rather than applied, and the next submission's prelude applies
the whole queue in order and empties it. -/
theorem c2_witness :
    updateBuffer
      { frames := fun _ => {}, activeFrameIndex := 0, submitIndex := 1,
        fenceValue := 1, gpuCompleted := 0, hasSubmitted := true,
        buffers := [(2, { desc := ⟨4⟩, resource := 7, contents := fun _ => 0 })],
        textures := [],
        pendingBufferUpdates := [⟨2, 0, [1]⟩, ⟨2, 1, [5]⟩], freeSrv := [],
        freeRTV := [], freeDSV := [], released := [] }
      2 [9] 3 =
    (.ok (),
      { frames := fun _ => {}, activeFrameIndex := 0, submitIndex := 1,
        fenceValue := 1, gpuCompleted := 0, hasSubmitted := true,
        buffers := [(2, { desc := ⟨4⟩, resource := 7, contents := fun _ => 0 })],
        textures := [],
        pendingBufferUpdates := [⟨2, 0, [1]⟩, ⟨2, 1, [5]⟩, ⟨2, 3, [9]⟩],
        freeSrv := [], freeRTV := [], freeDSV := [], released := [] }) ∧
    (submitPrelude
      { frames := fun _ => {}, activeFrameIndex := 0, submitIndex := 1,
        fenceValue := 1, gpuCompleted := 0, hasSubmitted := true,
        buffers := [(2, { desc := ⟨4⟩, resource := 7, contents := fun _ => 0 })],
        textures := [],
        pendingBufferUpdates := [⟨2, 0, [1]⟩, ⟨2, 1, [5]⟩], freeSrv := [],
        freeRTV := [], freeDSV := [], released := [] }).2.pendingBufferUpdates
      = [] := by
  have h := c2_buffer_updates
    { frames := fun _ => {}, activeFrameIndex := 0, submitIndex := 1,
      fenceValue := 1, gpuCompleted := 0, hasSubmitted := true,
      buffers := [(2, { desc := ⟨4⟩, resource := 7, contents := fun _ => 0 })],
      textures := [],
      pendingBufferUpdates := [⟨2, 0, [1]⟩, ⟨2, 1, [5]⟩], freeSrv := [],
      freeRTV := [], freeDSV := [], released := [] }
    2 [9] 3 { desc := ⟨4⟩, resource := 7, contents := fun _ => 0 }
    (by decide) (by simp) rfl (by decide)
  exact ⟨h.2.1 rfl, (h.2.2 rfl).2⟩

/-- C6: requesting a pipeline with view multiplicity above 1 on a device
lacking multi-view support never raises an error.  `CreatePipelineEx` with
`viewInstanceCount > 1` returns the zero (invalid) handle, leaving the
device untouched, when view instancing is unsupported or `ID3D12Device2`
is unavailable; at draw time `EnsurePSO` on a cache miss for a multi-view
pipeline entry returns null to the caller — not an exception — when
`ID3D12Device2` is absent, and likewise when the view count exceeds the
8-location array; and the same device still creates normal single-view
pipelines through the unconditional path. -/
theorem c6_multiview_soft_fail :
    (∀ (s : PipeDev) (vs ps t n : Nat), 1 < n →
      (s.supportsViewInstancing = false ∨ s.hasDevice2 = false) →
      createPipelineEx s vs ps t n = (0, s)) ∧
    (∀ (pipelines : List (Nat × PipelineEntry)) (shaders layouts : List Nat)
        (c : PsoCacheState) (k : PsoKeyInputs) (pit : PipelineEntry),
      alookup (psoKey k) c.cache = none →
      alookup k.pipelineId pipelines = some pit →
      shaders.contains pit.vs → shaders.contains pit.ps →
      layouts.contains k.layoutId →
      1 < pit.viewInstanceCount →
      ensurePSO pipelines shaders layouts false c k = (.ok none, c)) ∧
    (∀ (pipelines : List (Nat × PipelineEntry)) (shaders layouts : List Nat)
        (c : PsoCacheState) (k : PsoKeyInputs) (pit : PipelineEntry),
      alookup (psoKey k) c.cache = none →
      alookup k.pipelineId pipelines = some pit →
      shaders.contains pit.vs → shaders.contains pit.ps →
      layouts.contains k.layoutId →
      8 < pit.viewInstanceCount →
      ensurePSO pipelines shaders layouts true c k = (.ok none, c)) ∧
    (∀ (s : PipeDev) (vs ps t : Nat),
      createPipeline s vs ps t =
        ((s.nextPsoId + 1) % u32,
          { s with nextPsoId := (s.nextPsoId + 1) % u32,
                   pipelines := assocSet s.pipelines ((s.nextPsoId + 1) % u32)
                     ⟨vs, ps, t, 1⟩ })) := by
  refine ⟨?_, ?_, ?_, ?_⟩
  · intro s vs ps t n hn hcap
    unfold createPipelineEx
    rw [if_pos]
    refine ⟨hn, ?_⟩
    cases hcap with
    | inl h => exact Or.inl (by simp [h])
    | inr h => exact Or.inr (by simp [h])
  · intro pipelines shaders layouts c k pit hmiss hpit hvs hps hlay hvc
    have hvs2 : pit.vs ∈ shaders := by simpa using hvs
    have hps2 : pit.ps ∈ shaders := by simpa using hps
    have hlay2 : k.layoutId ∈ layouts := by simpa using hlay
    unfold ensurePSO
    dsimp only
    rw [hmiss]
    dsimp only
    rw [hpit]
    dsimp only
    rw [if_neg (by simp [hvs2, hps2]), if_neg (by simp [hlay2]),
      if_pos ⟨hvc, by simp⟩]
  · intro pipelines shaders layouts c k pit hmiss hpit hvs hps hlay hvc
    have hvs2 : pit.vs ∈ shaders := by simpa using hvs
    have hps2 : pit.ps ∈ shaders := by simpa using hps
    have hlay2 : k.layoutId ∈ layouts := by simpa using hlay
    unfold ensurePSO
    dsimp only
    rw [hmiss]
    dsimp only
    rw [hpit]
    dsimp only
    rw [if_neg (by simp [hvs2, hps2]), if_neg (by simp [hlay2]),
      if_neg (by simp), if_pos ⟨by omega, hvc⟩]
  · intro s vs ps t
    unfold createPipeline createPipelineEx
    rw [if_neg (by simp)]

/-- Witness for `c6_multiview_soft_fail`: a device without view-instancing
support returns the zero handle for a 6-view pipeline request and compiles
a normal pipeline for the single-view request; `EnsurePSO` without
`ID3D12Device2` returns null (no exception) for a cached-miss 6-view
entry. -/
theorem c6_witness :
    createPipelineEx
      { supportsViewInstancing := false, hasDevice2 := false, nextPsoId := 1,
        pipelines := [] } 10 11 0 6 =
      (0, { supportsViewInstancing := false, hasDevice2 := false,
            nextPsoId := 1, pipelines := [] }) ∧
    ensurePSO [(2, ⟨10, 11, 0, 6⟩)] [10, 11] [3] false ⟨[], 0⟩
      { pipelineId := 2, layoutId := 3,
        state := ⟨0, 0, true, true, 1, false⟩, numRT := 1, dsvFormat := 0,
        rtvFormats := [28, 0, 0, 0, 0, 0, 0, 0] } =
      (.ok none, ⟨[], 0⟩) ∧
    createPipeline
      { supportsViewInstancing := false, hasDevice2 := false, nextPsoId := 1,
        pipelines := [] } 10 11 0 =
      (2, { supportsViewInstancing := false, hasDevice2 := false,
            nextPsoId := 2, pipelines := [(2, ⟨10, 11, 0, 1⟩)] }) := by
  refine ⟨?_, ?_, ?_⟩
  · exact c6_multiview_soft_fail.1 _ 10 11 0 6 (by decide) (Or.inl rfl)
  · exact c6_multiview_soft_fail.2.1 _ [10, 11] [3] ⟨[], 0⟩ _ ⟨10, 11, 0, 6⟩
      rfl rfl (by decide) (by decide) (by decide) (by decide)
  · have h := c6_multiview_soft_fail.2.2.2
      { supportsViewInstancing := false, hasDevice2 := false, nextPsoId := 1,
        pipelines := [] } 10 11 0
    rw [h]
    rfl

theorem slotGrows_refl (s : Device) : slotGrows s s := by
  intro k
  exact ⟨⟨[], by simp⟩, ⟨[], by simp⟩, ⟨[], by simp⟩, ⟨[], by simp⟩⟩

theorem slotGrows_trans {a b c : Device} (h1 : slotGrows a b)
    (h2 : slotGrows b c) : slotGrows a c := by
  intro k
  obtain ⟨⟨t1, e1⟩, ⟨t2, e2⟩, ⟨t3, e3⟩, ⟨t4, e4⟩⟩ := h1 k
  obtain ⟨⟨u1, f1⟩, ⟨u2, f2⟩, ⟨u3, f3⟩, ⟨u4, f4⟩⟩ := h2 k
  exact ⟨⟨t1 ++ u1, by rw [f1, e1, List.append_assoc]⟩,
    ⟨t2 ++ u2, by rw [f2, e2, List.append_assoc]⟩,
    ⟨t3 ++ u3, by rw [f3, e3, List.append_assoc]⟩,
    ⟨t4 ++ u4, by rw [f4, e4, List.append_assoc]⟩⟩

theorem slotGrows_of_frames_eq {a b : Device} (h : b.frames = a.frames) :
    slotGrows a b := by
  intro k
  rw [h]
  exact ⟨⟨[], by simp⟩, ⟨[], by simp⟩, ⟨[], by simp⟩, ⟨[], by simp⟩⟩

theorem slotGrows_updCur_res (s : Device) (l : List Nat) :
    slotGrows s (updCur s (fun fr =>
      { fr with deferredResources := fr.deferredResources ++ l })) := by
  intro k
  by_cases hk : k = s.activeFrameIndex
  · subst hk
    exact ⟨⟨l, by simp [updCur]⟩, ⟨[], by simp [updCur]⟩,
      ⟨[], by simp [updCur]⟩, ⟨[], by simp [updCur]⟩⟩
  · refine ⟨⟨[], ?_⟩, ⟨[], ?_⟩, ⟨[], ?_⟩, ⟨[], ?_⟩⟩ <;>
      simp [updCur, Function.update_noteq hk]

theorem slotGrows_updCur_srv (s : Device) (l : List Nat) :
    slotGrows s (updCur s (fun fr =>
      { fr with deferredFreeSrv := fr.deferredFreeSrv ++ l })) := by
  intro k
  by_cases hk : k = s.activeFrameIndex
  · subst hk
    exact ⟨⟨[], by simp [updCur]⟩, ⟨l, by simp [updCur]⟩,
      ⟨[], by simp [updCur]⟩, ⟨[], by simp [updCur]⟩⟩
  · refine ⟨⟨[], ?_⟩, ⟨[], ?_⟩, ⟨[], ?_⟩, ⟨[], ?_⟩⟩ <;>
      simp [updCur, Function.update_noteq hk]

theorem slotGrows_updCur_rtv (s : Device) (l : List Nat) :
    slotGrows s (updCur s (fun fr =>
      { fr with deferredFreeRtv := fr.deferredFreeRtv ++ l })) := by
  intro k
  by_cases hk : k = s.activeFrameIndex
  · subst hk
    exact ⟨⟨[], by simp [updCur]⟩, ⟨[], by simp [updCur]⟩,
      ⟨l, by simp [updCur]⟩, ⟨[], by simp [updCur]⟩⟩
  · refine ⟨⟨[], ?_⟩, ⟨[], ?_⟩, ⟨[], ?_⟩, ⟨[], ?_⟩⟩ <;>
      simp [updCur, Function.update_noteq hk]

theorem slotGrows_updCur_dsv (s : Device) (l : List Nat) :
    slotGrows s (updCur s (fun fr =>
      { fr with deferredFreeDsv := fr.deferredFreeDsv ++ l })) := by
  intro k
  by_cases hk : k = s.activeFrameIndex
  · subst hk
    exact ⟨⟨[], by simp [updCur]⟩, ⟨[], by simp [updCur]⟩,
      ⟨[], by simp [updCur]⟩, ⟨l, by simp [updCur]⟩⟩
  · refine ⟨⟨[], ?_⟩, ⟨[], ?_⟩, ⟨[], ?_⟩, ⟨[], ?_⟩⟩ <;>
      simp [updCur, Function.update_noteq hk]

theorem slotGrows_if_step {s x : Device} (c : Prop) [Decidable c]
    {f : FrameSlot → FrameSlot} (hx : slotGrows s x)
    (hf : slotGrows x (updCur x f)) :
    slotGrows s (if c then updCur x f else x) := by
  split
  · exact slotGrows_trans hx hf
  · exact hx

theorem slotGrows_if2_step {s x y : Device} (c c2 : Prop) [Decidable c]
    [Decidable c2] {f : FrameSlot → FrameSlot} (hx : slotGrows s x)
    (hf : slotGrows x (updCur x f)) (hy : slotGrows x y) :
    slotGrows s (if c then (if c2 then updCur x f else y) else x) := by
  split
  · split
    · exact slotGrows_trans hx hf
    · exact slotGrows_trans hx hy
  · exact hx

/-- The source's `DestroyTexture` only appends to deferred-free lists, never drains. -/
theorem destroyTexture_slotGrows (s : Device) (h : Nat) :
    slotGrows s (destroyTexture s h) := by
  unfold destroyTexture
  by_cases h0 : h = 0
  · rw [if_pos h0]
    exact slotGrows_refl s
  · rw [if_neg h0]
    cases hlk : alookup h s.textures with
    | none => exact slotGrows_refl s
    | some e =>
      dsimp only
      exact slotGrows_if_step _
        (slotGrows_if_step _
          (slotGrows_if_step _
            (slotGrows_if_step _
              (slotGrows_if_step _
                (slotGrows_if_step _
                  (slotGrows_if_step _
                    (slotGrows_if_step _
                      (slotGrows_of_frames_eq rfl)
                      (slotGrows_updCur_res _ _))
                    (slotGrows_updCur_srv _ _))
                  (slotGrows_updCur_srv _ _))
                (slotGrows_updCur_rtv _ _))
              (slotGrows_updCur_rtv _ _))
            (slotGrows_updCur_rtv _ _))
          (slotGrows_updCur_dsv _ _))
        (slotGrows_updCur_dsv _ _)

/-- The source's `DestroyBuffer` only appends to deferred-free lists, never drains. -/
theorem destroyBuffer_slotGrows (s : Device) (h : Nat) :
    slotGrows s (destroyBuffer s h) := by
  unfold destroyBuffer
  by_cases h0 : h = 0
  · rw [if_pos h0]
    exact slotGrows_refl s
  · rw [if_neg h0]
    cases hlk : alookup h s.buffers with
    | none => exact slotGrows_refl s
    | some e =>
      dsimp only
      exact slotGrows_if2_step _ _
        (slotGrows_if2_step _ _
          (slotGrows_if2_step _ _
            (slotGrows_of_frames_eq rfl)
            (slotGrows_updCur_res _ _)
            (slotGrows_of_frames_eq rfl))
          (slotGrows_updCur_srv _ _)
          (slotGrows_of_frames_eq rfl))
        (slotGrows_updCur_srv _ _)
        (slotGrows_of_frames_eq rfl)

theorem updateBuffer_frames (s : Device) (h : Nat) (data : List Nat)
    (off : Nat) : ((updateBuffer s h data off).2).frames = s.frames := by
  unfold updateBuffer
  split
  · rfl
  · cases alookup h s.buffers with
    | none => rfl
    | some e =>
      dsimp only
      split
      · rfl
      · split <;> rfl

/-- What `BeginFrame` does to the slot it picks: lists drained into the
global free-lists, and the GPU has the slot's recorded fence value
completed before the drain. -/
theorem beginFrame_spec (s : Device) (ai : Fin 3)
    (hai : ai = ringSlot s.submitIndex) :
    ((beginFrame s).frames ai).deferredResources = [] ∧
    ((beginFrame s).frames ai).deferredFreeSrv = [] ∧
    ((beginFrame s).frames ai).deferredFreeRtv = [] ∧
    ((beginFrame s).frames ai).deferredFreeDsv = [] ∧
    (beginFrame s).released = s.released ++ (s.frames ai).deferredResources ∧
    (beginFrame s).freeSrv = s.freeSrv ++ (s.frames ai).deferredFreeSrv ∧
    (beginFrame s).freeRTV = s.freeRTV ++ (s.frames ai).deferredFreeRtv ∧
    (beginFrame s).freeDSV = s.freeDSV ++ (s.frames ai).deferredFreeDsv ∧
    (s.frames ai).fenceValue ≤ (beginFrame s).gpuCompleted := by
  subst hai
  unfold beginFrame waitForFence
  dsimp only
  split
  · rename_i hv
    refine ⟨?_, ?_, ?_, ?_, rfl, rfl, rfl, rfl, ?_⟩ <;>
      simp [Function.update_same, hv]
  · rename_i hv
    refine ⟨?_, ?_, ?_, ?_, rfl, rfl, rfl, rfl, ?_⟩ <;>
      simp [Function.update_same]

/-- What `BeginFrame` does to the slots it does not pick: nothing. -/
theorem beginFrame_other (s : Device) (k : Fin 3)
    (hk : k ≠ ringSlot s.submitIndex) :
    (beginFrame s).frames k = s.frames k := by
  unfold beginFrame waitForFence
  dsimp only
  split <;> exact Function.update_noteq hk _ _

theorem curSame_refl (s : Device) : curSlotResSame s s := ⟨rfl, rfl, rfl⟩

theorem curSame_step {s x : Device} (c : Prop) [Decidable c]
    {f : FrameSlot → FrameSlot} (hx : curSlotResSame s x)
    (hf : ∀ fr, (f fr).deferredResources = fr.deferredResources) :
    curSlotResSame s (if c then updCur x f else x) := by
  split
  · obtain ⟨ha, hr, hrel⟩ := hx
    refine ⟨ha, ?_, hrel⟩
    show ((Function.update x.frames x.activeFrameIndex
      (f (x.frames x.activeFrameIndex))) s.activeFrameIndex).deferredResources = _
    rw [ha, Function.update_same, hf]
    exact hr
  · exact hx

theorem routes_of_curSame {sOrig s1 y : Device} (e : TextureEntry)
    (hch : curSlotResSame s1 y)
    (hact : s1.activeFrameIndex = sOrig.activeFrameIndex)
    (hres1 : (s1.frames s1.activeFrameIndex).deferredResources =
      (sOrig.frames sOrig.activeFrameIndex).deferredResources ++ [e.resource])
    (hrel1 : s1.released = sOrig.released) :
    (y.frames sOrig.activeFrameIndex).deferredResources =
      (sOrig.frames sOrig.activeFrameIndex).deferredResources ++ [e.resource] ∧
    y.released = sOrig.released := by
  obtain ⟨ha, hr, hrel⟩ := hch
  constructor
  · calc (y.frames sOrig.activeFrameIndex).deferredResources
        = (y.frames s1.activeFrameIndex).deferredResources := by rw [hact]
      _ = (s1.frames s1.activeFrameIndex).deferredResources := hr
      _ = (sOrig.frames sOrig.activeFrameIndex).deferredResources
            ++ [e.resource] := hres1
  · exact hrel.trans hrel1

/-- The source's `DestroyTexture` of a live texture with a native resource queues that
resource on the current slot's kept-alive list and releases nothing. -/
theorem destroyTexture_routes (s : Device) (h : Nat) (e : TextureEntry)
    (h0 : h ≠ 0) (hlk : alookup h s.textures = some e)
    (hres : e.resource ≠ 0) :
    ((destroyTexture s h).frames s.activeFrameIndex).deferredResources =
      (s.frames s.activeFrameIndex).deferredResources ++ [e.resource] ∧
    (destroyTexture s h).released = s.released := by
  unfold destroyTexture
  rw [if_neg h0, hlk]
  dsimp only
  rw [if_pos hres]
  exact routes_of_curSame e
    (curSame_step _
      (curSame_step _
        (curSame_step _
          (curSame_step _
            (curSame_step _
              (curSame_step _
                (curSame_step _ (curSame_refl _) (fun fr => rfl))
                (fun fr => rfl))
              (fun fr => rfl))
            (fun fr => rfl))
          (fun fr => rfl))
        (fun fr => rfl))
      (fun fr => rfl))
    rfl
    (by simp [updCur, Function.update_same])
    rfl

/-- C1: a ring slot's deferred-free lists are drained into the global
free-lists only by the `BeginFrame` that picks that same slot
(`submitIndex % 3`), and that `BeginFrame` first blocks until the slot's
recorded fence value has been signalled; every other operation leaves the
slot's lists intact apart from appending.  A texture destroyed while a
slot is current has its native resource queued on that slot's kept-alive
list — physically released only when the slot is begun again, never
earlier. -/
theorem c1_deferred_release_only_at_slot_begin (s : Device) (o : DevOp)
    (k : Fin 3) :
    (picksSlot s o k →
      ((devStep o s).frames k).deferredResources = [] ∧
      ((devStep o s).frames k).deferredFreeSrv = [] ∧
      ((devStep o s).frames k).deferredFreeRtv = [] ∧
      ((devStep o s).frames k).deferredFreeDsv = [] ∧
      (devStep o s).released = s.released ++ (s.frames k).deferredResources ∧
      (devStep o s).freeSrv = s.freeSrv ++ (s.frames k).deferredFreeSrv ∧
      (devStep o s).freeRTV = s.freeRTV ++ (s.frames k).deferredFreeRtv ∧
      (devStep o s).freeDSV = s.freeDSV ++ (s.frames k).deferredFreeDsv ∧
      (s.frames k).fenceValue ≤ (devStep o s).gpuCompleted) ∧
    (¬picksSlot s o k →
      (∃ t, ((devStep o s).frames k).deferredResources =
        (s.frames k).deferredResources ++ t) ∧
      (∃ t, ((devStep o s).frames k).deferredFreeSrv =
        (s.frames k).deferredFreeSrv ++ t) ∧
      (∃ t, ((devStep o s).frames k).deferredFreeRtv =
        (s.frames k).deferredFreeRtv ++ t) ∧
      (∃ t, ((devStep o s).frames k).deferredFreeDsv =
        (s.frames k).deferredFreeDsv ++ t)) ∧
    (∀ h e, o = DevOp.destroyTexture h → h ≠ 0 →
      alookup h s.textures = some e → e.resource ≠ 0 →
      ((devStep o s).frames s.activeFrameIndex).deferredResources =
        (s.frames s.activeFrameIndex).deferredResources ++ [e.resource] ∧
      (devStep o s).released = s.released) := by
  refine ⟨?_, ?_, ?_⟩
  · rintro ⟨ho, hk⟩
    subst ho
    have hkr : k = ringSlot s.submitIndex := Fin.ext hk.symm
    exact beginFrame_spec s k hkr
  · intro hnp
    cases o with
    | beginFrame =>
      have hk : k ≠ ringSlot s.submitIndex := by
        intro he
        exact hnp ⟨rfl, by rw [he]; rfl⟩
      have hfr : (devStep DevOp.beginFrame s).frames k = s.frames k :=
        beginFrame_other s k hk
      rw [hfr]
      exact ⟨⟨[], by simp⟩, ⟨[], by simp⟩, ⟨[], by simp⟩, ⟨[], by simp⟩⟩
    | endFrame =>
      by_cases hk : k = s.activeFrameIndex
      · subst hk
        refine ⟨⟨[], ?_⟩, ⟨[], ?_⟩, ⟨[], ?_⟩, ⟨[], ?_⟩⟩ <;>
          simp [devStep, endFrame, Function.update_same]
      · refine ⟨⟨[], ?_⟩, ⟨[], ?_⟩, ⟨[], ?_⟩, ⟨[], ?_⟩⟩ <;>
          simp [devStep, endFrame, Function.update_noteq hk]
    | destroyTexture h => exact destroyTexture_slotGrows s h k
    | destroyBuffer h => exact destroyBuffer_slotGrows s h k
    | updateBuffer h data off =>
      have hfr : (devStep (DevOp.updateBuffer h data off) s).frames =
          s.frames := updateBuffer_frames s h data off
      rw [hfr]
      exact ⟨⟨[], by simp⟩, ⟨[], by simp⟩, ⟨[], by simp⟩, ⟨[], by simp⟩⟩
    | gpuAdvance n =>
      exact ⟨⟨[], by simp [devStep]⟩, ⟨[], by simp [devStep]⟩,
        ⟨[], by simp [devStep]⟩, ⟨[], by simp [devStep]⟩⟩
  · intro h e ho h0 hlk hres
    subst ho
    exact destroyTexture_routes s h e h0 hlk hres

/-- Witness for `c1_deferred_release_only_at_slot_begin`: a device about to
begin submit number 3 (which picks ring slot 0 again) with slot 0 holding a
deferred native resource 42, a deferred SRV index 5 and recorded fence
value 7: the `BeginFrame` drains slot 0 (resource 42 released, index 5
recycled) with the completed fence at least 7, leaves slot 1 untouched,
and destroying live texture 2 queues its resource on the current slot
without releasing it. -/
theorem c1_witness :
    (devStep DevOp.beginFrame
      { frames := fun i => if i.val = 0 then ⟨0, 0, 7, [42], [5], [6], [8]⟩ else {},
        activeFrameIndex := 1, submitIndex := 3, fenceValue := 7,
        gpuCompleted := 0, hasSubmitted := true, buffers := [],
        textures := [(2, { resource := 42, hasSRV := true, srvIndex := 5 })],
        pendingBufferUpdates := [], freeSrv := [], freeRTV := [],
        freeDSV := [], released := [] }).released = [42] ∧
    7 ≤ (devStep DevOp.beginFrame
      { frames := fun i => if i.val = 0 then ⟨0, 0, 7, [42], [5], [6], [8]⟩ else {},
        activeFrameIndex := 1, submitIndex := 3, fenceValue := 7,
        gpuCompleted := 0, hasSubmitted := true, buffers := [],
        textures := [(2, { resource := 42, hasSRV := true, srvIndex := 5 })],
        pendingBufferUpdates := [], freeSrv := [], freeRTV := [],
        freeDSV := [], released := [] }).gpuCompleted ∧
    (∃ t, ((devStep DevOp.beginFrame
      { frames := fun i => if i.val = 0 then ⟨0, 0, 7, [42], [5], [6], [8]⟩ else {},
        activeFrameIndex := 1, submitIndex := 3, fenceValue := 7,
        gpuCompleted := 0, hasSubmitted := true, buffers := [],
        textures := [(2, { resource := 42, hasSRV := true, srvIndex := 5 })],
        pendingBufferUpdates := [], freeSrv := [], freeRTV := [],
        freeDSV := [], released := [] }).frames 1).deferredResources =
      (({} : FrameSlot)).deferredResources ++ t) ∧
    (devStep (DevOp.destroyTexture 2)
      { frames := fun i => if i.val = 0 then ⟨0, 0, 7, [42], [5], [6], [8]⟩ else {},
        activeFrameIndex := 1, submitIndex := 3, fenceValue := 7,
        gpuCompleted := 0, hasSubmitted := true, buffers := [],
        textures := [(2, { resource := 42, hasSRV := true, srvIndex := 5 })],
        pendingBufferUpdates := [], freeSrv := [], freeRTV := [],
        freeDSV := [], released := [] }).released = [] := by
  have h := c1_deferred_release_only_at_slot_begin
    { frames := fun i => if i.val = 0 then ⟨0, 0, 7, [42], [5], [6], [8]⟩ else {},
      activeFrameIndex := 1, submitIndex := 3, fenceValue := 7,
      gpuCompleted := 0, hasSubmitted := true, buffers := [],
      textures := [(2, { resource := 42, hasSRV := true, srvIndex := 5 })],
      pendingBufferUpdates := [], freeSrv := [], freeRTV := [],
      freeDSV := [], released := [] }
    DevOp.beginFrame 0
  have hd := c1_deferred_release_only_at_slot_begin
    { frames := fun i => if i.val = 0 then ⟨0, 0, 7, [42], [5], [6], [8]⟩ else {},
      activeFrameIndex := 1, submitIndex := 3, fenceValue := 7,
      gpuCompleted := 0, hasSubmitted := true, buffers := [],
      textures := [(2, { resource := 42, hasSRV := true, srvIndex := 5 })],
      pendingBufferUpdates := [], freeSrv := [], freeRTV := [],
      freeDSV := [], released := [] }
    (DevOp.destroyTexture 2) 0
  have h1 := c1_deferred_release_only_at_slot_begin
    { frames := fun i => if i.val = 0 then ⟨0, 0, 7, [42], [5], [6], [8]⟩ else {},
      activeFrameIndex := 1, submitIndex := 3, fenceValue := 7,
      gpuCompleted := 0, hasSubmitted := true, buffers := [],
      textures := [(2, { resource := 42, hasSRV := true, srvIndex := 5 })],
      pendingBufferUpdates := [], freeSrv := [], freeRTV := [],
      freeDSV := [], released := [] }
    DevOp.beginFrame 1
  have hpos := h.1 ⟨rfl, rfl⟩
  have hneg := h1.2.1 (by decide)
  have hroute := hd.2.2 2 { resource := 42, hasSRV := true, srvIndex := 5 }
    rfl (by decide) rfl (by decide)
  exact ⟨hpos.2.2.2.2.1.trans rfl, hpos.2.2.2.2.2.2.2.2, hneg.1,
    hroute.2.trans rfl⟩

theorem psoKey_eq_specFingerprint (k : PsoKeyInputs) :
    psoKey k = specFingerprint k := by
  simp [psoKey, specFingerprint, List.foldl_append]

theorem ensurePSO_hit_again (pipelines : List (Nat × PipelineEntry))
    (shaders layouts : List Nat) (d2 : Bool) (c c' : PsoCacheState)
    (k : PsoKeyInputs) (p : Nat)
    (h : ensurePSO pipelines shaders layouts d2 c k = (.ok (some p), c')) :
    ensurePSO pipelines shaders layouts d2 c' k = (.ok (some p), c') := by
  unfold ensurePSO at h ⊢
  dsimp only at h ⊢
  cases hlk : alookup (psoKey k) c.cache with
  | some q =>
    rw [hlk] at h
    dsimp only at h
    rw [Prod.mk.injEq] at h
    obtain ⟨h1, h2⟩ := h
    have hq : q = p := by
      injection h1 with h1
      injection h1
    subst hq
    subst h2
    rw [hlk]
  | none =>
    rw [hlk] at h
    dsimp only at h
    cases hpit : alookup k.pipelineId pipelines with
    | none =>
      rw [hpit] at h
      exact absurd (congrArg Prod.fst h) (by simp)
    | some pit =>
      rw [hpit] at h
      dsimp only at h
      by_cases hsh : ¬(shaders.contains pit.vs ∧ shaders.contains pit.ps)
      · rw [if_pos hsh] at h
        exact absurd (congrArg Prod.fst h) (by simp)
      · rw [if_neg hsh] at h
        by_cases hla : ¬layouts.contains k.layoutId
        · rw [if_pos hla] at h
          exact absurd (congrArg Prod.fst h) (by simp)
        · rw [if_neg hla] at h
          by_cases hv1 : pit.viewInstanceCount > 1 ∧ ¬d2 = true
          · rw [if_pos hv1] at h
            exact absurd (congrArg Prod.fst h) (by simp)
          · rw [if_neg hv1] at h
            by_cases hv8 : pit.viewInstanceCount > 1 ∧ pit.viewInstanceCount > 8
            · rw [if_pos hv8] at h
              exact absurd (congrArg Prod.fst h) (by simp)
            · rw [if_neg hv8] at h
              rw [Prod.mk.injEq] at h
              obtain ⟨h1, h2⟩ := h
              have hp : c.nextNativePso = p := by
                injection h1 with h1
                injection h1
              rw [← h2, ← hp]
              rw [show alookup (psoKey k)
                  (assocSet c.cache (psoKey k) c.nextNativePso) =
                  some c.nextNativePso from alookup_assocSet_self _ _ _]

theorem ensurePSO_miss_compiles (pipelines : List (Nat × PipelineEntry))
    (shaders layouts : List Nat) (d2 : Bool) (c : PsoCacheState)
    (k : PsoKeyInputs) (pit : PipelineEntry)
    (hmiss : alookup (psoKey k) c.cache = none)
    (hpit : alookup k.pipelineId pipelines = some pit)
    (hvs : shaders.contains pit.vs) (hps : shaders.contains pit.ps)
    (hlay : layouts.contains k.layoutId)
    (hsv : pit.viewInstanceCount ≤ 1) :
    ensurePSO pipelines shaders layouts d2 c k =
      (.ok (some c.nextNativePso),
        { cache := assocSet c.cache (psoKey k) c.nextNativePso,
          nextNativePso := c.nextNativePso + 1 }) := by
  have hvs2 : pit.vs ∈ shaders := by simpa using hvs
  have hps2 : pit.ps ∈ shaders := by simpa using hps
  have hlay2 : k.layoutId ∈ layouts := by simpa using hlay
  unfold ensurePSO
  dsimp only
  rw [hmiss]
  dsimp only
  rw [hpit]
  dsimp only
  rw [if_neg (by simp [hvs2, hps2]), if_neg (by simp [hlay2]),
    if_neg (by omega), if_neg (by omega)]

/-- C4 (amended): a pipeline resolution whose components match a cached
resolution returns the same native pipeline object and leaves the cache
unchanged; the cache key is exactly the spec's order-sensitive 64-bit
FNV-1a fold of (pipeline id, layout id, packed state bits, render-target
count, depth format, the eight render-target formats); and a resolution
whose key is absent from the cache compiles a fresh native pipeline and
caches it under that key.  A single-component change therefore misses the
cache exactly when the FNV-1a keys differ — which a 64-bit collision can
defeat. -/
theorem c4_pso_cache_key (pipelines : List (Nat × PipelineEntry))
    (shaders layouts : List Nat) (d2 : Bool) (c c' : PsoCacheState)
    (k : PsoKeyInputs) (p : Nat) (pit : PipelineEntry) :
    (ensurePSO pipelines shaders layouts d2 c k = (.ok (some p), c') →
      ensurePSO pipelines shaders layouts d2 c' k = (.ok (some p), c')) ∧
    psoKey k = specFingerprint k ∧
    (alookup (psoKey k) c.cache = none →
      alookup k.pipelineId pipelines = some pit →
      shaders.contains pit.vs → shaders.contains pit.ps →
      layouts.contains k.layoutId → pit.viewInstanceCount ≤ 1 →
      ensurePSO pipelines shaders layouts d2 c k =
        (.ok (some c.nextNativePso),
          { cache := assocSet c.cache (psoKey k) c.nextNativePso,
            nextNativePso := c.nextNativePso + 1 })) := by
  refine ⟨?_, psoKey_eq_specFingerprint k, ?_⟩
  · intro h
    exact ensurePSO_hit_again pipelines shaders layouts d2 c c' k p h
  · intro hmiss hpit hvs hps hlay hsv
    exact ensurePSO_miss_compiles pipelines shaders layouts d2 c k pit
      hmiss hpit hvs hps hlay hsv

/-- Witness for `c4_pso_cache_key`: on a device with one pipeline (handle
2) and one layout (handle 3), the first resolution compiles and caches
native object 100; resolving the identical components again returns object
100 with the cache unchanged. -/
theorem c4_witness :
    ensurePSO [(2, ⟨10, 11, 0, 1⟩)] [10, 11] [3] true ⟨[], 100⟩
      { pipelineId := 2, layoutId := 3,
        state := ⟨0, 0, true, true, 1, false⟩, numRT := 1, dsvFormat := 0,
        rtvFormats := [28, 0, 0, 0, 0, 0, 0, 0] } =
      (.ok (some 100),
        { cache := assocSet [] (psoKey
            { pipelineId := 2, layoutId := 3,
              state := ⟨0, 0, true, true, 1, false⟩, numRT := 1,
              dsvFormat := 0,
              rtvFormats := [28, 0, 0, 0, 0, 0, 0, 0] }) 100,
          nextNativePso := 101 }) ∧
    ensurePSO [(2, ⟨10, 11, 0, 1⟩)] [10, 11] [3] true
      { cache := assocSet [] (psoKey
          { pipelineId := 2, layoutId := 3,
            state := ⟨0, 0, true, true, 1, false⟩, numRT := 1,
            dsvFormat := 0,
            rtvFormats := [28, 0, 0, 0, 0, 0, 0, 0] }) 100,
        nextNativePso := 101 }
      { pipelineId := 2, layoutId := 3,
        state := ⟨0, 0, true, true, 1, false⟩, numRT := 1, dsvFormat := 0,
        rtvFormats := [28, 0, 0, 0, 0, 0, 0, 0] } =
      (.ok (some 100),
        { cache := assocSet [] (psoKey
            { pipelineId := 2, layoutId := 3,
              state := ⟨0, 0, true, true, 1, false⟩, numRT := 1,
              dsvFormat := 0,
              rtvFormats := [28, 0, 0, 0, 0, 0, 0, 0] }) 100,
          nextNativePso := 101 }) := by
  have hfirst := (c4_pso_cache_key [(2, ⟨10, 11, 0, 1⟩)] [10, 11] [3] true
    ⟨[], 100⟩
    { cache := assocSet [] (psoKey
        { pipelineId := 2, layoutId := 3,
          state := ⟨0, 0, true, true, 1, false⟩, numRT := 1, dsvFormat := 0,
          rtvFormats := [28, 0, 0, 0, 0, 0, 0, 0] }) 100,
      nextNativePso := 101 }
    { pipelineId := 2, layoutId := 3,
      state := ⟨0, 0, true, true, 1, false⟩, numRT := 1, dsvFormat := 0,
      rtvFormats := [28, 0, 0, 0, 0, 0, 0, 0] } 100 ⟨10, 11, 0, 1⟩).2.2
    rfl rfl (by decide) (by decide) (by decide) (by decide)
  refine ⟨hfirst, ?_⟩
  exact (c4_pso_cache_key [(2, ⟨10, 11, 0, 1⟩)] [10, 11] [3] true
    ⟨[], 100⟩ _
    { pipelineId := 2, layoutId := 3,
      state := ⟨0, 0, true, true, 1, false⟩, numRT := 1, dsvFormat := 0,
      rtvFormats := [28, 0, 0, 0, 0, 0, 0, 0] } 100 ⟨10, 11, 0, 1⟩).1 hfirst

end DX12
